import Mathlib

/-!
Verification development for the multi-tenant BPMN workflow orchestrator
(`backend/core` of the `workflow` repository).  The Python sources are shallowly
embedded: JSON values become the mutual inductive `Json`, the Django rows become
Lean structures, the request handlers become pure state-passing functions, and
the SpiffWorkflow engine (an external library accessed through attribute
probing) is abstracted as a record of operations `EngineOps`.
-/

/-! ## JSON value model

Python/JSON values as used by the backend.  Numbers are modelled as integers
(the endpoints under study only ever handle integral numbers).  `Json.obj`
keeps fields in insertion order, exactly like a Python `dict`.
-/

mutual

inductive Json where
  | null
  | bool (b : Bool)
  | num (n : Int)
  | str (s : String)
  | arr (items : JsonArr)
  | obj (fields : JsonObj)
deriving DecidableEq

inductive JsonArr where
  | nil
  | cons (head : Json) (tail : JsonArr)
deriving DecidableEq

inductive JsonObj where
  | nil
  | cons (key : String) (val : Json) (tail : JsonObj)
deriving DecidableEq

end

/-- Build a `JsonObj` from a list of key/value pairs (insertion order kept). -/
def JsonObj.ofList : List (String × Json) → JsonObj
  | [] => .nil
  | (k, v) :: rest => .cons k v (JsonObj.ofList rest)

/-- Fields of a `JsonObj` as a list of key/value pairs. -/
def JsonObj.toList : JsonObj → List (String × Json)
  | .nil => []
  | .cons k v rest => (k, v) :: rest.toList

/-- Build a `JsonArr` from a list. -/
def JsonArr.ofList : List Json → JsonArr
  | [] => .nil
  | v :: rest => .cons v (JsonArr.ofList rest)

/-- Convenience constructor mirroring a Python dict literal. -/
def Json.objOf (fields : List (String × Json)) : Json :=
  .obj (JsonObj.ofList fields)

/-- Python `d.get(key)` on a dict: first binding wins (dict keys are unique). -/
def JsonObj.get? : JsonObj → String → Option Json
  | .nil, _ => none
  | .cons k v rest, key => if k = key then some v else rest.get? key

/-- Python `payload.get(key)` where `payload` may be any JSON value; a non-dict
has no keys (the sources only call `.get` on values known to be dicts). -/
def Json.get? : Json → String → Option Json
  | .obj fields, key => fields.get? key
  | _, _ => none

/-- Python `payload.get(key, default)`. -/
def Json.getD (j : Json) (key : String) (default : Json) : Json :=
  match j.get? key with
  | some v => v
  | none => default

/-- Python `isinstance(x, dict)`. -/
def Json.isDict : Json → Bool
  | .obj _ => true
  | _ => false

/-! ## String helpers

Byte-position based `String` primitives do not reduce inside the kernel, so the
Python string operations are re-implemented over `List Char`. -/

/-- Lexicographic strict comparison of code-point lists (Python `<` on `str`). -/
def charsLt : List Char → List Char → Bool
  | [], [] => false
  | [], _ :: _ => true
  | _ :: _, [] => false
  | a :: as, b :: bs =>
    if a.toNat < b.toNat then true
    else if b.toNat < a.toNat then false
    else charsLt as bs

/-- Python `a <= b` on strings (code-point lexicographic order). -/
def pyStrLe (a b : String) : Bool :=
  !(charsLt b.data a.data)

/-- Python `str.lower()` (ASCII case folding suffices for the attribute names
the backend lowers). -/
def pyLower (s : String) : String :=
  String.mk (s.data.map Char.toLower)

/-- Python `str.strip()`: drop leading and trailing whitespace. -/
def pyStrip (s : String) : String :=
  String.mk (((s.data.dropWhile Char.isWhitespace).reverse.dropWhile
    Char.isWhitespace).reverse)

/-- Auxiliary: does `pat` occur at the head of `l`? -/
def charsLeadMatch : List Char → List Char → Bool
  | [], _ => true
  | _ :: _, [] => false
  | p :: ps, c :: cs => if p = c then charsLeadMatch ps cs else false

/-- Python `pat in s` (substring containment). -/
def charsContains : List Char → List Char → Bool
  | _, [] => false
  | pat, c :: cs => if charsLeadMatch pat (c :: cs) then true else charsContains pat cs

/-- Python `marker in s` on strings, where the empty pattern is contained in
everything. -/
def pyContains (s pat : String) : Bool :=
  if pat.data = [] then true else charsContains pat.data s.data

/-- Python `s.endswith(pat)`. -/
def pyEndsWith (s pat : String) : Bool :=
  charsLeadMatch pat.data.reverse s.data.reverse

/-- Python string join with a separator. -/
def pyJoin (sep : String) : List String → String
  | [] => ""
  | [x] => x
  | x :: rest => x ++ sep ++ pyJoin sep rest

/-! ## Canonical JSON encoding

Mirrors `json.dumps(value, ensure_ascii=True, separators=(",", ":"))`, with and
without `sort_keys=True`.  The backend uses the sorted form for request hashing
(`UserTaskCompleteView.post`) and the unsorted form for outbound service-task
bodies (`_perform_service_task_request`). -/

/-- Lowercase hex digit. -/
def hexDigit (n : Nat) : Char :=
  if n < 10 then Char.ofNat (48 + n) else Char.ofNat (87 + n % 16)

/-- Four-digit lowercase `\uXXXX` escape body for a code unit below 0x10000. -/
def u16Hex (n : Nat) : List Char :=
  [hexDigit (n / 4096 % 16), hexDigit (n / 256 % 16), hexDigit (n / 16 % 16),
    hexDigit (n % 16)]

/-- JSON escape of one character under `ensure_ascii=True`: printable ASCII is
kept, `"` and `\` are escaped, control characters use the short escapes, and
everything else becomes `\uXXXX` (a surrogate pair above 0xFFFF). -/
def jsonEscapeChar (c : Char) : List Char :=
  let n := c.toNat
  if c = '"' then ['\\', '"']
  else if c = '\\' then ['\\', '\\']
  else if n = 8 then ['\\', 'b']
  else if n = 9 then ['\\', 't']
  else if n = 10 then ['\\', 'n']
  else if n = 12 then ['\\', 'f']
  else if n = 13 then ['\\', 'r']
  else if 32 ≤ n ∧ n ≤ 126 then [c]
  else if n < 65536 then '\\' :: 'u' :: u16Hex n
  else
    let m := n - 65536
    ('\\' :: 'u' :: u16Hex (55296 + m / 1024)) ++ ('\\' :: 'u' :: u16Hex (56320 + m % 1024))

/-- JSON string literal encoder (`ensure_ascii=True`). -/
def jsonDumpString (s : String) : String :=
  String.mk ('"' :: (s.data.map jsonEscapeChar).flatten ++ ['"'])

/-- Insert a field into a key-sorted field list (stable, Python `sorted`). -/
def insertFieldSorted (k : String) (v : Json) : JsonObj → JsonObj
  | .nil => .cons k v .nil
  | .cons k' v' rest =>
    if pyStrLe k k' then .cons k v (.cons k' v' rest)
    else .cons k' v' (insertFieldSorted k v rest)

/-- Sort the fields of an object by key (Python `sort_keys=True`). -/
def sortFields : JsonObj → JsonObj
  | .nil => .nil
  | .cons k v rest => insertFieldSorted k v (sortFields rest)

mutual

/-- Recursively sort every object's fields by key (the effect of
`sort_keys=True`, pulled out so that the encoder below is purely structural). -/
def jsonSortAll : Json → Json
  | .null => .null
  | .bool b => .bool b
  | .num n => .num n
  | .str s => .str s
  | .arr items => .arr (jsonSortAllArr items)
  | .obj fields => .obj (sortFields (jsonSortAllObj fields))

/-- Map `jsonSortAll` over array elements. -/
def jsonSortAllArr : JsonArr → JsonArr
  | .nil => .nil
  | .cons v rest => .cons (jsonSortAll v) (jsonSortAllArr rest)

/-- Map `jsonSortAll` over object values. -/
def jsonSortAllObj : JsonObj → JsonObj
  | .nil => .nil
  | .cons k v rest => .cons k (jsonSortAll v) (jsonSortAllObj rest)

end

mutual

/-- JSON encoder with compact separators and ASCII escaping, fields emitted in
the order they appear. -/
def jsonDumpsRaw : Json → String
  | .null => "null"
  | .bool true => "true"
  | .bool false => "false"
  | .num n => toString n
  | .str s => jsonDumpString s
  | .arr items => "[" ++ jsonDumpsArr items ++ "]"
  | .obj fields => "\x7b" ++ jsonDumpsObj fields ++ "\x7d"

/-- Comma-joined encodings of array elements. -/
def jsonDumpsArr : JsonArr → String
  | .nil => ""
  | .cons v .nil => jsonDumpsRaw v
  | .cons v (.cons w rest) =>
    jsonDumpsRaw v ++ "," ++ jsonDumpsArr (.cons w rest)

/-- Comma-joined `"key":value` encodings of object fields (compact separators). -/
def jsonDumpsObj : JsonObj → String
  | .nil => ""
  | .cons k v .nil => jsonDumpString k ++ ":" ++ jsonDumpsRaw v
  | .cons k v (.cons k' v' rest) =>
    jsonDumpString k ++ ":" ++ jsonDumpsRaw v ++ ","
      ++ jsonDumpsObj (.cons k' v' rest)

end

/-- Python `json.dumps(value, ensure_ascii=True, separators=(",", ":"))`,
optionally with `sort_keys=True`. -/
def jsonDumps (sortKeys : Bool) (v : Json) : String :=
  jsonDumpsRaw (if sortKeys then jsonSortAll v else v)

/-! ## Bytes, SHA-256 and HMAC

`hashlib.sha256` / `hmac.new(..., hashlib.sha256)` as pure functions over byte
lists (each byte a `Nat < 256`).  All word arithmetic is plain `Nat` arithmetic
modulo `2^32`. -/

/-- UTF-8 encoding of one character. -/
def charUtf8 (c : Char) : List Nat :=
  let n := c.toNat
  if n < 128 then [n]
  else if n < 2048 then [192 + n / 64, 128 + n % 64]
  else if n < 65536 then [224 + n / 4096, 128 + n / 64 % 64, 128 + n % 64]
  else [240 + n / 262144, 128 + n / 4096 % 64, 128 + n / 64 % 64, 128 + n % 64]

/-- Python `s.encode("utf-8")`. -/
def strUtf8 (s : String) : List Nat :=
  (s.data.map charUtf8).flatten

/-- Truncate to a 32-bit word. -/
def w32 (n : Nat) : Nat := n % 4294967296

/-- 32-bit addition. -/
def wadd (a b : Nat) : Nat := (a + b) % 4294967296

/-- 32-bit right rotation. -/
def rotr (k a : Nat) : Nat :=
  w32 ((a >>> k) ||| (a <<< (32 - k)))

/-- 32-bit bitwise complement. -/
def wnot (a : Nat) : Nat := 4294967295 - w32 a

/-- SHA-256 round constants. -/
def sha256K : List Nat :=
  [1116352408, 1899447441, 3049323471, 3921009573, 961987163, 1508970993,
   2453635748, 2870763221, 3624381080, 310598401, 607225278, 1426881987,
   1925078388, 2162078206, 2614888103, 3248222580, 3835390401, 4022224774,
   264347078, 604807628, 770255983, 1249150122, 1555081692, 1996064986,
   2554220882, 2821834349, 2952996808, 3210313671, 3336571891, 3584528711,
   113926993, 338241895, 666307205, 773529912, 1294757372, 1396182291,
   1695183700, 1986661051, 2177026350, 2456956037, 2730485921, 2820302411,
   3259730800, 3345764771, 3516065817, 3600352804, 4094571909, 275423344,
   430227734, 506948616, 659060556, 883997877, 958139571, 1322822218,
   1537002063, 1747873779, 1955562222, 2024104815, 2227730452, 2361852424,
   2428436474, 2756734187, 3204031479, 3329325298]

/-- SHA-256 initial hash state. -/
def sha256H0 : List Nat :=
  [1779033703, 3144134277, 1013904242, 2773480762, 1359893119, 2600822924,
   528734635, 1541459225]

/-- Message padding: append `0x80`, zero bytes, and the 64-bit big-endian bit
length, reaching a multiple of 64 bytes. -/
def sha256Pad (msg : List Nat) : List Nat :=
  let len := msg.length
  let zeros := (64 - (len + 9) % 64) % 64
  let bitLen := 8 * len
  msg ++ [128] ++ List.replicate zeros 0 ++
    [bitLen / 72057594037927936 % 256, bitLen / 281474976710656 % 256,
     bitLen / 1099511627776 % 256, bitLen / 4294967296 % 256,
     bitLen / 16777216 % 256, bitLen / 65536 % 256,
     bitLen / 256 % 256, bitLen % 256]

/-- Split a byte list into 64-byte chunks. -/
def sha256Chunks (fuel : Nat) (bytes : List Nat) : List (List Nat) :=
  match fuel with
  | 0 => []
  | fuel + 1 =>
    match bytes with
    | [] => []
    | _ => bytes.take 64 :: sha256Chunks fuel (bytes.drop 64)

/-- Big-endian 32-bit words of a 64-byte chunk. -/
def chunkWords : List Nat → List Nat
  | b0 :: b1 :: b2 :: b3 :: rest =>
    (b0 * 16777216 + b1 * 65536 + b2 * 256 + b3) :: chunkWords rest
  | _ => []

/-- Message-schedule extension step: append the next word. -/
def sha256Extend : Nat → List Nat → List Nat
  | 0, ws => ws
  | n + 1, ws =>
    let len := ws.length
    let w15 := ws.getD (len - 15) 0
    let w2 := ws.getD (len - 2) 0
    let s0 := Nat.xor (Nat.xor (rotr 7 w15) (rotr 18 w15)) (w15 >>> 3)
    let s1 := Nat.xor (Nat.xor (rotr 17 w2) (rotr 19 w2)) (w2 >>> 10)
    sha256Extend n (ws ++ [wadd (wadd (ws.getD (len - 16) 0) s0) (wadd (ws.getD (len - 7) 0) s1)])

/-- One compression round over state `[a,b,c,d,e,f,g,h]`. -/
def sha256Round (st : List Nat) (kw : Nat × Nat) : List Nat :=
  match st with
  | [a, b, c, d, e, f, g, h] =>
    let s1 := Nat.xor (Nat.xor (rotr 6 e) (rotr 11 e)) (rotr 25 e)
    let ch := Nat.xor (Nat.land e f) (Nat.land (wnot e) g)
    let temp1 := wadd (wadd h s1) (wadd ch (wadd kw.1 kw.2))
    let s0 := Nat.xor (Nat.xor (rotr 2 a) (rotr 13 a)) (rotr 22 a)
    let maj := Nat.xor (Nat.xor (Nat.land a b) (Nat.land a c)) (Nat.land b c)
    let temp2 := wadd s0 maj
    [wadd temp1 temp2, a, b, c, wadd d temp1, e, f, g]
  | other => other

/-- Process one 64-byte chunk. -/
def sha256Chunk (h : List Nat) (chunk : List Nat) : List Nat :=
  let ws := sha256Extend 48 (chunkWords chunk)
  let st := (sha256K.zip ws).foldl sha256Round h
  (h.zip st).map (fun p => wadd p.1 p.2)

/-- Big-endian bytes of a 32-bit word. -/
def wordBytes (w : Nat) : List Nat :=
  [w / 16777216 % 256, w / 65536 % 256, w / 256 % 256, w % 256]

/-- SHA-256 digest of a byte list (32 bytes). -/
def sha256 (msg : List Nat) : List Nat :=
  let padded := sha256Pad msg
  let final := (sha256Chunks (padded.length) padded).foldl sha256Chunk sha256H0
  (final.map wordBytes).flatten

/-- Lowercase hex rendering of a byte list (`hexdigest()`). -/
def hexDigest (bytes : List Nat) : String :=
  String.mk ((bytes.map (fun b => [hexDigit (b / 16 % 16), hexDigit (b % 16)])).flatten)

/-- HMAC-SHA256 over byte lists (RFC 2104; block size 64). -/
def hmacSha256 (key msg : List Nat) : List Nat :=
  let key0 := if 64 < key.length then sha256 key else key
  let keyPad := key0 ++ List.replicate (64 - key0.length) 0
  let ipad := keyPad.map (fun b => Nat.xor b 54)
  let opad := keyPad.map (fun b => Nat.xor b 92)
  sha256 (opad ++ sha256 (ipad ++ msg))

/-- Hex SHA-256 of a UTF-8 string (`hashlib.sha256(s.encode()).hexdigest()`). -/
def sha256HexOfString (s : String) : String :=
  hexDigest (sha256 (strUtf8 s))

/-! ## Workflow run results

Snapshot records produced by `workflow_runtime` and consumed by the views when
materializing waiting tasks. -/

/-- Snapshot of a waiting user-facing task (`UserTaskSnapshot`). -/
structure UserTaskSnapshot where
  taskId : String
  name : String
  taskType : String
deriving DecidableEq

/-- Snapshot of a waiting service task (`ServiceTaskSnapshot`). -/
structure ServiceTaskSnapshot where
  taskId : String
  name : String
  taskType : String
  elementId : String
  elementName : String
deriving DecidableEq

/-- Result of a workflow execution run (`WorkflowRunResult`). -/
structure WorkflowRunResult where
  status : String
  serializedState : Json
  waitingUserTasks : List UserTaskSnapshot
  waitingServiceTasks : List ServiceTaskSnapshot
  errorMessage : Option String
deriving DecidableEq

/-! ## Database rows

Rows of the tenant under request: every query in the views filters by
`tenant=request.tenant`, so the state below is that tenant's slice of each
table.  Timestamps are abstract instants (`Nat`). -/

/-- A `CatalogServiceTask` row joined with its catalog entry's external id. -/
structure CatalogServiceTaskRow where
  catalogEntryExternalId : String
  externalId : String
  name : String
  url : String
deriving DecidableEq

/-- A `WorkflowInstance` row. -/
structure WorkflowInstanceRow where
  id : Nat
  status : String
  correlationId : String
  businessKey : String
  serializedState : Json
  updatedAt : Nat
deriving DecidableEq

/-- A `UserTask` row. -/
structure UserTaskRow where
  id : Nat
  workflowInstanceId : Nat
  taskId : String
  name : String
  taskType : String
  status : String
  actorIdentity : String
  action : String
  actionData : Json
  completedAt : Option Nat
  createdAt : Nat
  updatedAt : Nat
deriving DecidableEq

/-- A `ServiceTask` row. -/
structure ServiceTaskRow where
  id : Nat
  workflowInstanceId : Nat
  taskId : String
  name : String
  taskType : String
  elementId : String
  elementName : String
  status : String
  executionMode : String
  catalogServiceTask : Option CatalogServiceTaskRow
  requestPayload : Json
  responsePayload : Json
  lastError : String
  startedAt : Option Nat
  completedAt : Option Nat
  createdAt : Nat
  updatedAt : Nat
deriving DecidableEq

/-- A `UserTaskCompletionIdempotency` row. -/
structure UserTaskIdemRow where
  userTaskId : Nat
  idempotencyKey : String
  requestHash : String
  responsePayload : Json
deriving DecidableEq

/-- A `ServiceTaskCallbackIdempotency` row. -/
structure CallbackIdemRow where
  serviceTaskId : Nat
  idempotencyKey : String
  requestHash : String
  responsePayload : Json
deriving DecidableEq

/-- An `AuditEvent` row (the fields the endpoints under study write). -/
structure AuditEventRec where
  eventType : String
  actorIdentity : String
  correlationId : String
  businessKey : String
  payload : Json
deriving DecidableEq

/-- An HTTP response: status code plus JSON body. -/
structure HttpResponse where
  status : Nat
  body : Json
deriving DecidableEq

/-- Python truthiness of an optional header string (`if idempotency_key:`). -/
def optTruthy : Option String → Bool
  | none => false
  | some s => s ≠ ""

/-- Optional timestamp as a serializer value. -/
def optTimeJson : Option Nat → Json
  | none => Json.null
  | some n => Json.num n

/-- Python `str(...)` of a JSON value as the endpoints use it (the values fed
to `str` by the backend are strings or scalars; containers never reach it on
the paths under study). -/
def pyStrOfJson : Json → String
  | .str s => s
  | .bool true => "True"
  | .bool false => "False"
  | .null => "None"
  | .num n => toString n
  | v => jsonDumpsRaw v

/-! ## Serializers

`UserTaskSerializer` / `ServiceTaskSerializer` response bodies, with the field
order of their `Meta.fields`. -/

/-- Response body of `UserTaskSerializer(task).data`. -/
def serializeUserTask (t : UserTaskRow) (inst : WorkflowInstanceRow)
    (processKey : String) (version : Nat) : Json :=
  Json.objOf
    [("id", .num t.id), ("task_id", .str t.taskId), ("name", .str t.name),
     ("task_type", .str t.taskType), ("status", .str t.status),
     ("actor_identity", .str t.actorIdentity), ("action", .str t.action),
     ("action_data", t.actionData), ("completed_at", optTimeJson t.completedAt),
     ("workflow_instance_id", .num t.workflowInstanceId),
     ("workflow_instance_status", .str inst.status),
     ("process_key", .str processKey), ("workflow_version", .num version),
     ("created_at", .num t.createdAt), ("updated_at", .num t.updatedAt)]

/-- Response body of `ServiceTaskSerializer(task).data`. -/
def serializeServiceTask (t : ServiceTaskRow) (inst : WorkflowInstanceRow)
    (processKey : String) (version : Nat) : Json :=
  Json.objOf
    [("id", .num t.id), ("task_id", .str t.taskId), ("name", .str t.name),
     ("task_type", .str t.taskType), ("element_id", .str t.elementId),
     ("element_name", .str t.elementName), ("status", .str t.status),
     ("execution_mode", .str t.executionMode),
     ("catalog_entry_id",
       match t.catalogServiceTask with
       | some c => .str c.catalogEntryExternalId
       | none => .null),
     ("catalog_service_task_id",
       match t.catalogServiceTask with
       | some c => .str c.externalId
       | none => .null),
     ("started_at", optTimeJson t.startedAt),
     ("completed_at", optTimeJson t.completedAt),
     ("workflow_instance_id", .num t.workflowInstanceId),
     ("workflow_instance_status", .str inst.status),
     ("process_key", .str processKey), ("workflow_version", .num version),
     ("created_at", .num t.createdAt), ("updated_at", .num t.updatedAt)]

/-! ## Helper functions of `views.py` -/

/-- Source `_coerce_payload`: a missing or `None` payload becomes `{}`. -/
def coercePayload : Option Json → Json
  | none => Json.objOf []
  | some .null => Json.objOf []
  | some p => p

/-- Source `_normalize_result_payload`: wrap non-dict values as
`{"result": x}`. -/
def normalizeResultPayload : Json → Json
  | .obj fields => .obj fields
  | v => Json.objOf [("result", v)]

/-- A raw HTTP body: its bytes, the outcome of `json.loads` on its UTF-8
decoding (`none` when decoding or parsing raises), and its
`decode("utf-8", errors="replace")` text.  Decoding and parsing themselves are
the Python standard library's, hence inputs of the model. -/
structure RawBody where
  bytes : List Nat
  parsed : Option Json
  decoded : String
deriving DecidableEq

/-- Source `_parse_json_body`: empty body is `{}`, an unparseable body becomes
`{"raw": <replaced text>}`. -/
def parseJsonBody (b : RawBody) : Json :=
  if b.bytes = [] then Json.objOf []
  else
    match b.parsed with
    | some v => v
    | none => Json.objOf [("raw", Json.str b.decoded)]

/-- Source `_callback_signature`: hex HMAC-SHA256 keyed by the raw API key over
`body || timestamp`. -/
def callbackSignature (rawKey : String) (body : List Nat) (timestamp : String) : String :=
  hexDigest (hmacSha256 (strUtf8 rawKey) (body ++ strUtf8 timestamp))

/-- Source `_callback_request_hash`: hex SHA-256 of `body || timestamp`. -/
def callbackRequestHash (body : List Nat) (timestamp : String) : String :=
  hexDigest (sha256 (body ++ strUtf8 timestamp))

/-- Python `hmac.compare_digest` on hex strings: equality (its constant-time
execution has no observable counterpart here). -/
def compareDigest (a b : String) : Bool :=
  a == b

/-- Source `_build_service_task_payload`: the outbound request envelope
`{payload, context}`, `callback_url` only in async mode. -/
def buildServiceTaskPayload (inst : WorkflowInstanceRow) (task : ServiceTaskRow)
    (payload : Json) (callbackUrl : String) (executionMode : String) : Json :=
  Json.objOf
    [("payload", payload),
     ("context", Json.objOf
       ([("workflow_instance_id", .num inst.id),
         ("service_task_id", .num task.id),
         ("task_id", .str task.taskId),
         ("correlation_id", .str inst.correlationId),
         ("execution_mode", .str executionMode)] ++
        (if executionMode = "async" ∧ callbackUrl ≠ "" then
          [("callback_url", Json.str callbackUrl)]
        else [])))]

/-- Bytes of the outbound POST body in `_perform_service_task_request`:
`json.dumps(payload, ensure_ascii=True, separators=(",", ":")).encode()` —
note: no `sort_keys`. -/
def serviceTaskRequestBody (envelope : Json) : List Nat :=
  strUtf8 (jsonDumps false envelope)

/-- Outcome of the `urlopen` call inside `_perform_service_task_request`:
a returned response, an `HTTPError` (how `urllib` surfaces non-2xx statuses),
or a `URLError` (transport failure, including the 10s timeout). -/
inductive UpstreamOutcome where
  | response (status : Nat) (body : RawBody)
  | httpError (code : Nat) (body : RawBody)
  | urlError (message : String)
deriving DecidableEq

/-- Source `_perform_service_task_request`, result `(status_code,
response_payload, error)`. -/
def performServiceTaskRequest : UpstreamOutcome → Nat × Json × String
  | .response status body => (status, parseJsonBody body, "")
  | .httpError code body => (code, parseJsonBody body, "service_task_http_error")
  | .urlError message => (0, Json.objOf [], message)

/-- Source `_ensure_catalog_service_task_binding`: both ids must be non-empty
and name an existing `CatalogServiceTask` of the tenant. -/
def ensureCatalogServiceTaskBinding (catalog : List CatalogServiceTaskRow)
    (catalogEntryId catalogTaskId : String) : Option CatalogServiceTaskRow :=
  if catalogEntryId = "" ∨ catalogTaskId = "" then none
  else catalog.find? (fun c =>
    c.catalogEntryExternalId == catalogEntryId && c.externalId == catalogTaskId)

/-- Catalog-entry key variants probed by `_find_catalog_binding_from_definition`. -/
def catalogKeyVariants : List String :=
  ["catalog_entry_id", "catalogentryid", "catalog_id", "catalogid",
   "capability_id", "capabilityid"]

/-- Service-task key variants probed by `_find_catalog_binding_from_definition`. -/
def taskKeyVariants : List String :=
  ["service_task_id", "servicetaskid", "task_id", "taskid", "service_task",
   "servicetask"]

/-- Value of a lowercased attribute key in the dict comprehension
`{str(key).lower(): str(value) for key, value in attrs.items()}`: the last
field whose lowercased key matches wins. -/
def loweredLookup : JsonObj → String → Option String
  | .nil, _ => none
  | .cons k v rest, key =>
    match loweredLookup rest key with
    | some r => some r
    | none => if pyLower k = key then some (pyStrOfJson v) else none

/-- Python `next((lowered[key] for key in variants if key in lowered), "")`. -/
def firstVariantValue (attrs : JsonObj) : List String → String
  | [] => ""
  | k :: rest =>
    match loweredLookup attrs k with
    | some v => v
    | none => firstVariantValue attrs rest

/-- The skip condition of the nested `if` in
`_find_catalog_binding_from_definition`: a placeholder is passed over only when
a non-empty `element_id` mismatches AND a non-empty `element_name` mismatches
(the inner `pass` branch accepts everything else). -/
def placeholderSkipped (ph : Json) (elementId elementName : String) : Bool :=
  (decide (elementId ≠ "") && decide (ph.get? "element_id" ≠ some (.str elementId)))
  && (decide (elementName ≠ "") && decide (ph.get? "element_name" ≠ some (.str elementName)))

/-- Loop body of `_find_catalog_binding_from_definition`. -/
def findCatalogBindingLoop (catalog : List CatalogServiceTaskRow) :
    JsonArr → String → String → Option CatalogServiceTaskRow
  | .nil, _, _ => none
  | .cons ph rest, elementId, elementName =>
    if !ph.isDict then findCatalogBindingLoop catalog rest elementId elementName
    else if placeholderSkipped ph elementId elementName then
      findCatalogBindingLoop catalog rest elementId elementName
    else
      match ph.get? "placeholders" with
      | some (.obj attrs) =>
        let catalogEntryId := firstVariantValue attrs catalogKeyVariants
        let catalogTaskId := firstVariantValue attrs taskKeyVariants
        if catalogEntryId = "" ∨ catalogTaskId = "" then
          findCatalogBindingLoop catalog rest elementId elementName
        else
          match catalog.find? (fun c =>
            c.catalogEntryExternalId == catalogEntryId
              && c.externalId == catalogTaskId) with
          | some c => some c
          | none => findCatalogBindingLoop catalog rest elementId elementName
      | _ => findCatalogBindingLoop catalog rest elementId elementName

/-- Source `_find_catalog_binding_from_definition` over the stored
`catalog_binding_placeholders` JSON (anything that is not a list yields no
binding, like `placeholders or []` followed by the `isinstance` check). -/
def findCatalogBindingFromDefinition (catalog : List CatalogServiceTaskRow)
    (placeholders : Json) (elementId elementName : String) :
    Option CatalogServiceTaskRow :=
  match placeholders with
  | .arr items => findCatalogBindingLoop catalog items elementId elementName
  | _ => none

/-! ## Materialization of waiting tasks -/

/-- Source `_create_user_tasks_for_instance`: insert a pending row for every
waiting user-task snapshot whose `task_id` is not present yet (database
surrogate ids are not observed by the endpoints, so new rows carry id 0). -/
def createUserTasksForInstance (instId : Nat) (existing : List UserTaskRow)
    (snaps : List UserTaskSnapshot) (now : Nat) : List UserTaskRow :=
  let existingIds := (existing.filter (fun r => r.workflowInstanceId == instId)).map
    (fun r => r.taskId)
  (snaps.filter (fun s => !existingIds.contains s.taskId)).map (fun s =>
    { id := 0, workflowInstanceId := instId, taskId := s.taskId, name := s.name,
      taskType := s.taskType, status := "pending", actorIdentity := "",
      action := "", actionData := Json.objOf [], completedAt := none,
      createdAt := now, updatedAt := now })

/-- Source `_create_service_tasks_for_instance`: like the user-task case, but
each new row also attempts the auto-binding lookup from the definition's
placeholders. -/
def createServiceTasksForInstance (catalog : List CatalogServiceTaskRow)
    (placeholders : Json) (instId : Nat) (existing : List ServiceTaskRow)
    (snaps : List ServiceTaskSnapshot) (now : Nat) : List ServiceTaskRow :=
  let existingIds := (existing.filter (fun r => r.workflowInstanceId == instId)).map
    (fun r => r.taskId)
  (snaps.filter (fun s => !existingIds.contains s.taskId)).map (fun s =>
    { id := 0, workflowInstanceId := instId, taskId := s.taskId, name := s.name,
      taskType := s.taskType, elementId := s.elementId,
      elementName := s.elementName, status := "pending", executionMode := "",
      catalogServiceTask :=
        findCatalogBindingFromDefinition catalog placeholders s.elementId s.elementName,
      requestPayload := Json.objOf [], responsePayload := Json.objOf [],
      lastError := "", startedAt := none, completedAt := none,
      createdAt := now, updatedAt := now })

/-! ## Endpoint: user-task completion -/

/-- JSON body `{"detail": ...}` of the framework error responses. -/
def detailBody (s : String) : Json :=
  Json.objOf [("detail", .str s)]

/-- The tenant-scoped state read and written by `UserTaskCompleteView.post`:
the addressed `UserTask` row (if any), its instance, the tenant's idempotency
records and the audit log. -/
structure UserTaskCompleteSt where
  task? : Option UserTaskRow
  workflowInstance : WorkflowInstanceRow
  idemRows : List UserTaskIdemRow
  audit : List AuditEventRec
deriving DecidableEq

/-- Request hash of `UserTaskCompleteView.post`:
`sha256(json.dumps({actor, action, data}, sort_keys=True, separators=(",", ":"),
ensure_ascii=True))`. -/
def userTaskRequestHash (actor action : String) (actionData : Json) : String :=
  sha256HexOfString (jsonDumps true (Json.objOf
    [("actor", .str actor), ("action", .str action), ("data", actionData)]))

/-- The `action_data` the view derives from the validated `payload` field: a
missing or `None` payload becomes `{}`. -/
def userTaskActionData : Option Json → Json
  | none => Json.objOf []
  | some .null => Json.objOf []
  | some p => p

/-- Source `UserTaskCompleteView.post` (after serializer validation), as a pure
transition on the tenant's state.  `payload?` is the validated `payload` field,
`idemKey?` the `Idempotency-Key` header. -/
def userTaskCompletePost (st : UserTaskCompleteSt) (processKey : String)
    (version : Nat) (actor action : String) (payload? : Option Json)
    (idemKey? : Option String) (now : Nat) : HttpResponse × UserTaskCompleteSt :=
  let actionData : Json := userTaskActionData payload?
  let requestHash := userTaskRequestHash actor action actionData
  match st.task? with
  | none => ({ status := 404, body := detailBody "Not found." }, st)
  | some task =>
    let completeCore : HttpResponse × UserTaskCompleteSt :=
      if task.status = "completed" then
        let responsePayload := serializeUserTask task st.workflowInstance processKey version
        let st' :=
          if optTruthy idemKey? then
            { st with
                idemRows := st.idemRows ++
                [{ userTaskId := task.id, idempotencyKey := idemKey?.getD "",
                   requestHash := requestHash, responsePayload := responsePayload }] }
          else st
        ({ status := 200, body := responsePayload }, st')
      else
        let task' := { task with
            status := "completed", actorIdentity := actor,
            action := action, actionData := actionData,
            completedAt := some now, updatedAt := now }
        let auditRec : AuditEventRec :=
          { eventType := "user_task_complete", actorIdentity := actor,
            correlationId := st.workflowInstance.correlationId,
            businessKey := st.workflowInstance.businessKey,
            payload := Json.objOf
              [("task_id", .str task.taskId), ("action", .str action),
               ("action_data", actionData)] }
        let responsePayload := serializeUserTask task' st.workflowInstance processKey version
        let st' := { st with
            task? := some task',
            audit := st.audit ++ [auditRec],
            idemRows := st.idemRows ++
            (if optTruthy idemKey? then
              [{ userTaskId := task.id, idempotencyKey := idemKey?.getD "",
                  requestHash := requestHash, responsePayload := responsePayload }]
            else []) }
        ({ status := 200, body := responsePayload }, st')
    if optTruthy idemKey? then
      match st.idemRows.find? (fun r => some r.idempotencyKey == idemKey?) with
      | some record =>
        if record.userTaskId ≠ task.id ∨ record.requestHash ≠ requestHash then
          ({ status := 409, body := detailBody "Idempotency key conflict." }, st)
        else
          ({ status := 200, body := record.responsePayload }, st)
      | none => completeCore
    else completeCore

/-! ## Endpoint: service-task start -/

/-- Tenant-scoped state read and written by the service-task endpoints: the
addressed `ServiceTask` row (locked, if any), its instance, the instance's
sibling task rows, the tenant's catalog, the definition version's placeholder
JSON, callback idempotency records and the audit log. -/
structure OrchestratorSt where
  serviceTask? : Option ServiceTaskRow
  workflowInstance : WorkflowInstanceRow
  userTasks : List UserTaskRow
  serviceTasks : List ServiceTaskRow
  catalog : List CatalogServiceTaskRow
  placeholders : Json
  callbackIdem : List CallbackIdemRow
  audit : List AuditEventRec
  processKey : String
  version : Nat
deriving DecidableEq

/-- The 400 body for an unresolved catalog binding. -/
def missingCatalogBindingBody : Json :=
  Json.objOf
    [("code", .str "missing_catalog_binding"),
     ("message", .str "Catalog binding is required for service tasks.")]

/-- Outcome of the first transaction of `ServiceTaskStartView.post`: either an
early response (404, no-op 200, 409 conflict, 400 missing binding) or the
stamped `in_progress` row together with the resolved binding. -/
inductive StartPhase1Out where
  | reject (resp : HttpResponse)
  | proceed (task1 : ServiceTaskRow) (bound : CatalogServiceTaskRow)
deriving DecidableEq

/-- First transaction of `ServiceTaskStartView.post`: load the locked row,
refuse to start anything that is not `pending` or `failed` (no-op 200 with the
current serialization), resolve the catalog binding (supplied ids must match an
existing binding; otherwise supplied ids, then the definition placeholders),
then stamp `in_progress` / `started_at` / cleared `last_error`. -/
def serviceTaskStartPhase1 (st : OrchestratorSt)
    (catalogEntryId catalogTaskId executionMode : String) (payload : Json)
    (now : Nat) : StartPhase1Out :=
  match st.serviceTask? with
  | none => .reject { status := 404, body := detailBody "Not found." }
  | some task =>
    if ¬(task.status = "pending" ∨ task.status = "failed") then
      .reject { status := 200, body :=
        serializeServiceTask task st.workflowInstance st.processKey st.version }
    else
      let boundRes : Except HttpResponse CatalogServiceTaskRow :=
        match task.catalogServiceTask with
        | some bound =>
          if catalogEntryId ≠ "" ∧ bound.catalogEntryExternalId ≠ catalogEntryId then
            .error { status := 409, body := detailBody "Catalog binding conflict." }
          else if catalogTaskId ≠ "" ∧ bound.externalId ≠ catalogTaskId then
            .error { status := 409, body := detailBody "Catalog binding conflict." }
          else .ok bound
        | none =>
          match ensureCatalogServiceTaskBinding st.catalog catalogEntryId catalogTaskId with
          | some b => .ok b
          | none =>
            match findCatalogBindingFromDefinition st.catalog st.placeholders
              task.elementId task.elementName with
            | some b => .ok b
            | none => .error { status := 400, body := missingCatalogBindingBody }
      match boundRes with
      | .error resp => .reject resp
      | .ok bound =>
        .proceed { task with
            catalogServiceTask := some bound,
            requestPayload := payload, executionMode := executionMode,
            status := "in_progress", startedAt := some now, lastError := "",
            updatedAt := now } bound

/-- The `service_task_start` audit event written after the first transaction. -/
def serviceTaskStartAuditOf (st : OrchestratorSt) (task1 : ServiceTaskRow)
    (bound : CatalogServiceTaskRow) (executionMode : String) : AuditEventRec :=
  { eventType := "service_task_start", actorIdentity := "",
    correlationId := st.workflowInstance.correlationId,
    businessKey := st.workflowInstance.businessKey,
    payload := Json.objOf
      [("task_id", .str task1.taskId),
       ("execution_mode", .str executionMode),
       ("catalog_entry_id", .str bound.catalogEntryExternalId),
       ("service_task_id", .str bound.externalId)] }

/-- Source `ServiceTaskStartView.post`.  `upstream` is the outcome of the
outbound `urlopen` call; `resumeFn` stands for
`resume_workflow_from_state(instance.definition_version, ·, completed_task_id
:= ·, task_result := ·, …)`; `absoluteCallbackUrl` is
`request.build_absolute_uri(reverse("service-task-callback", …))`; `now` and
`now2` are the clock readings of the two transactions. -/
def serviceTaskStartPost (st : OrchestratorSt)
    (catalogEntryIdParam serviceTaskIdParam : String)
    (executionMode? : Option String) (payload? : Option Json)
    (upstream : UpstreamOutcome)
    (resumeFn : Json → String → Json → WorkflowRunResult)
    (absoluteCallbackUrl : String) (now now2 : Nat) :
    HttpResponse × OrchestratorSt :=
  let catalogEntryId := pyStrip catalogEntryIdParam
  let catalogTaskId := pyStrip serviceTaskIdParam
  let executionMode := match executionMode? with
    | some m => m
    | none => "sync"
  let payload := coercePayload payload?
  match serviceTaskStartPhase1 st catalogEntryId catalogTaskId executionMode
    payload now with
  | .reject resp => (resp, st)
  | .proceed task1 bound =>
        let st1 := { st with
            serviceTask? := some task1,
            audit := st.audit ++
              [serviceTaskStartAuditOf st task1 bound executionMode] }
        let callbackUrl := if executionMode = "async" then absoluteCallbackUrl else ""
        let envelope :=
          buildServiceTaskPayload st1.workflowInstance task1 payload callbackUrl executionMode
        let _requestBody := serviceTaskRequestBody envelope
        let outcome := performServiceTaskRequest upstream
        let statusCode := outcome.1
        let responsePayload := outcome.2.1
        let error0 := outcome.2.2
        let error :=
          if statusCode ≠ 0 ∧ 400 ≤ statusCode then
            (if error0 = "" then "service_task_http_error" else error0)
          else error0
        match st1.serviceTask? with
        | none => ({ status := 404, body := detailBody "Not found." }, st1)
        | some task2 =>
          if error ≠ "" then
            let task3 := { task2 with
                status := "failed", lastError := error,
                responsePayload := normalizeResultPayload responsePayload,
                completedAt := some now2, updatedAt := now2 }
            let inst2 := { st1.workflowInstance with status := "failed", updatedAt := now2 }
            ({ status := 502,
               body := serializeServiceTask task3 inst2 st1.processKey st1.version },
             { st1 with
                 serviceTask? := some task3, workflowInstance := inst2 })
          else if executionMode = "async" then
            let task3 := { task2 with
                status := "waiting",
                responsePayload := normalizeResultPayload responsePayload,
                updatedAt := now2 }
            ({ status := 200,
               body := serializeServiceTask task3 st1.workflowInstance st1.processKey st1.version },
             { st1 with
                 serviceTask? := some task3 })
          else
            let resultPayload := normalizeResultPayload responsePayload
            let rr := resumeFn st1.workflowInstance.serializedState task2.taskId resultPayload
            let inst2 := { st1.workflowInstance with
                status := rr.status,
                serializedState := rr.serializedState, updatedAt := now2 }
            let newUsers := createUserTasksForInstance inst2.id st1.userTasks
              rr.waitingUserTasks now2
            let newSvcs := createServiceTasksForInstance st1.catalog st1.placeholders
              inst2.id st1.serviceTasks rr.waitingServiceTasks now2
            let task3 := { task2 with
                status := "completed",
                responsePayload := resultPayload, completedAt := some now2,
                updatedAt := now2 }
            ({ status := 200,
               body := serializeServiceTask task3 inst2 st1.processKey st1.version },
             { st1 with
                 serviceTask? := some task3, workflowInstance := inst2,
                 userTasks := st1.userTasks ++ newUsers,
                 serviceTasks := st1.serviceTasks ++ newSvcs })

/-! ## Endpoint: service-task callback -/

/-- The header checks at the top of `ServiceTaskCallbackView.post`: missing API
key → 401, missing timestamp or signature → 400, HMAC mismatch (constant-time
compare against `_callback_signature`) → 401; `none` when verification
passes. -/
def callbackAuthCheck (apiKeyHeader timestampHeader signatureHeader : String)
    (bodyBytes : List Nat) : Option HttpResponse :=
  if apiKeyHeader = "" then
    some { status := 401, body := detailBody "Missing tenant API key." }
  else if timestampHeader = "" ∨ signatureHeader = "" then
    some { status := 400,
           body := detailBody "Missing callback signature headers." }
  else if !compareDigest (callbackSignature apiKeyHeader bodyBytes timestampHeader)
      signatureHeader then
    some { status := 401, body := detailBody "Invalid callback signature." }
  else none

/-- Source `ServiceTaskCallbackView.post`.  Headers default to `""` when absent
(`request.headers.get(..., "")`); `idemKey?` is the `Idempotency-Key` header.
The result is `none` when the handler raises (reading `.get` on a parsed
non-dict body), which surfaces as an unhandled 500 at the HTTP boundary. -/
def serviceTaskCallbackPost (st : OrchestratorSt)
    (apiKeyHeader timestampHeader signatureHeader : String)
    (idemKey? : Option String) (body : RawBody)
    (resumeFn : Json → String → Json → WorkflowRunResult)
    (now : Nat) : Option (HttpResponse × OrchestratorSt) :=
  match callbackAuthCheck apiKeyHeader timestampHeader signatureHeader body.bytes with
  | some resp => some (resp, st)
  | none =>
    let requestHash := callbackRequestHash body.bytes timestampHeader
    match st.serviceTask? with
    | none => some ({ status := 404, body := detailBody "Not found." }, st)
    | some task =>
      let idemHit :=
        if optTruthy idemKey? then
          st.callbackIdem.find? (fun r => some r.idempotencyKey == idemKey?)
        else none
      match idemHit with
      | some record =>
        if record.serviceTaskId ≠ task.id ∨ record.requestHash ≠ requestHash then
          some ({ status := 409, body := detailBody "Idempotency key conflict." }, st)
        else
          some ({ status := 200, body := record.responsePayload }, st)
      | none =>
        if task.status = "completed" then
          let responsePayload :=
            serializeServiceTask task st.workflowInstance st.processKey st.version
          let st' :=
            if optTruthy idemKey? then
              { st with
                  callbackIdem := st.callbackIdem ++
                    [{ serviceTaskId := task.id, idempotencyKey := idemKey?.getD "",
                       requestHash := requestHash,
                       responsePayload := responsePayload }] }
            else st
          some ({ status := 200, body := responsePayload }, st')
        else
          let callbackPayload := parseJsonBody body
          match callbackPayload with
          | .obj fields =>
            let callbackStatus :=
              pyLower (pyStrOfJson (Json.getD callbackPayload "status" (.str "")))
            let resultData :=
              match fields.get? "data" with
              | some v =>
                if v = Json.null then
                  (match fields.get? "result" with
                   | some w => w
                   | none => callbackPayload)
                else v
              | none =>
                match fields.get? "result" with
                | some w => w
                | none => callbackPayload
            let branchRes :
                ServiceTaskRow × WorkflowInstanceRow × List UserTaskRow
                  × List ServiceTaskRow :=
              if callbackStatus = "failed" then
                let task' := { task with
                    status := "failed",
                    lastError :=
                      pyStrOfJson (Json.getD callbackPayload "error" (.str "")),
                    responsePayload := normalizeResultPayload resultData,
                    completedAt := some now, updatedAt := now }
                let inst' := { st.workflowInstance with
                    status := "failed", updatedAt := now }
                (task', inst', [], [])
              else
                let resultPayload := normalizeResultPayload resultData
                let rr := resumeFn st.workflowInstance.serializedState task.taskId
                  resultPayload
                let inst' := { st.workflowInstance with
                    status := rr.status, serializedState := rr.serializedState,
                    updatedAt := now }
                let newUsers := createUserTasksForInstance inst'.id st.userTasks
                  rr.waitingUserTasks now
                let newSvcs := createServiceTasksForInstance st.catalog
                  st.placeholders inst'.id st.serviceTasks rr.waitingServiceTasks now
                let task' := { task with
                    status := "completed", responsePayload := resultPayload,
                    completedAt := some now, updatedAt := now }
                (task', inst', newUsers, newSvcs)
            let task' := branchRes.1
            let inst' := branchRes.2.1
            let newUsers := branchRes.2.2.1
            let newSvcs := branchRes.2.2.2
            let responsePayload :=
              serializeServiceTask task' inst' st.processKey st.version
            let auditRec : AuditEventRec :=
              { eventType := "service_task_callback", actorIdentity := "",
                correlationId := inst'.correlationId,
                businessKey := inst'.businessKey,
                payload := Json.objOf
                  [("task_id", .str task'.taskId), ("status", .str task'.status),
                   ("callback_status", .str callbackStatus),
                   ("error", .str task'.lastError)] }
            let st' := { st with
                serviceTask? := some task', workflowInstance := inst',
                userTasks := st.userTasks ++ newUsers,
                serviceTasks := st.serviceTasks ++ newSvcs,
                audit := st.audit ++ [auditRec],
                callbackIdem := st.callbackIdem ++
                  (if optTruthy idemKey? then
                    [{ serviceTaskId := task'.id, idempotencyKey := idemKey?.getD "",
                       requestHash := requestHash,
                       responsePayload := responsePayload }]
                  else []) }
            some ({ status := 200, body := responsePayload }, st')
          | _ => none

/-! ## Workflow runtime (`workflow_runtime.py`)

The SpiffWorkflow engine is an external dependency accessed via attribute
probing; it is abstracted as `EngineOps σ` over an opaque engine-state type
`σ`.  The repository's own control flow — the advance loop, waiting
classification, the ScriptTask guard, snapshot collection, resume — is
embedded below over those operations. -/

/-- The task-spec data that `workflow_runtime` reads off an engine task spec:
its class name, the `manual` flag, its `name`, its BPMN element id
(`bpmn_id`/`id` probing collapsed), and its script source (
`script`/`script_text`/`script_body`/`scriptBody` probing collapsed to the
first attribute that is present). -/
structure TaskSpecRT where
  className : String
  manual : Bool
  name : String
  bpmnId : String
  script : Option String
deriving DecidableEq

/-- An engine task as observed by `workflow_runtime`: its id (`str(task.id)`),
its `name`, and its spec (when present). -/
structure EngTask where
  id : String
  name : String
  spec : Option TaskSpecRT
deriving DecidableEq

/-- The engine operations that `workflow_runtime` invokes on SpiffWorkflow
objects.  `execScript` stands for the RestrictedPython compile+exec of a
script source: it yields the mutated engine state and the script's optional
`result` variable, or an error detail string (`compile error: …` /
`runtime error: …`). -/
structure EngineOps (σ : Type) where
  readyTasks : σ → List EngTask
  getTaskFromId : σ → String → Option EngTask
  runTask : σ → EngTask → σ
  completeTask : σ → EngTask → σ
  execScript : σ → EngTask → String → Except String (σ × Option Json)
  isCompleted : σ → Bool
  serialize : σ → Json
  attachData : σ → String → String → σ
  applyResult : σ → EngTask → Json → σ

/-- Source `WAITING_TASK_SPEC_NAMES`. -/
def waitingTaskSpecNames : List String :=
  ["UserTask", "ManualTask", "ServiceTask", "SendTask", "ExternalTask"]

/-- Source `USER_WAITING_TASK_SPEC_NAMES`. -/
def userWaitingTaskSpecNames : List String :=
  ["UserTask", "ManualTask"]

/-- Source `_is_waiting_task`. -/
def isWaitingTaskRT (t : EngTask) : Bool :=
  match t.spec with
  | none => false
  | some spec =>
    if spec.manual then true else waitingTaskSpecNames.contains spec.className

/-- Source `_is_script_task` (`== "ScriptTask"` or the class-name ends in
`ScriptTask`). -/
def isScriptTaskRT (t : EngTask) : Bool :=
  match t.spec with
  | none => false
  | some spec =>
    if spec.className = "ScriptTask" then true
    else pyEndsWith spec.className "ScriptTask"

/-- Source `_extract_script_source`. -/
def extractScriptSource : Option TaskSpecRT → Option String
  | none => none
  | some spec => spec.script

/-- Source `_format_script_error`. -/
def formatScriptError (t : EngTask) (detail : String) : String :=
  let parts :=
    (if t.name ≠ "" then ["name=" ++ t.name] else []) ++
    (if t.id ≠ "" then ["id=" ++ t.id] else []) ++
    (if detail ≠ "" then [detail] else [])
  "ScriptTask execution failed" ++ ": " ++ pyJoin ", " parts

/-- Source `_apply_task_result`: a `None` result is a no-op, a non-dict result
is wrapped as `{"result": x}` before being merged into the task data and the
`service_task_results` namespace (the merge itself is an engine-state update,
`EngineOps.applyResult`). -/
def applyTaskResult {σ : Type} (ops : EngineOps σ) (s : σ) (t : EngTask) :
    Option Json → σ
  | none => s
  | some r => ops.applyResult s t (normalizeResultPayload r)

/-- Source `_run_script_task`: missing or blank script source raises
`ScriptTaskExecutionError` with detail `missing script`; otherwise the sandbox
runs and an optional `result` is applied. -/
def runScriptTaskRT {σ : Type} (ops : EngineOps σ) (s : σ) (t : EngTask) :
    Except String σ :=
  match extractScriptSource t.spec with
  | none => .error (formatScriptError t "missing script")
  | some src =>
    if pyStrip src = "" then .error (formatScriptError t "missing script")
    else
      match ops.execScript s t src with
      | .error detail => .error (formatScriptError t detail)
      | .ok (s', result?) => .ok (applyTaskResult ops s' t result?)

/-- Source `_run_task`: ScriptTasks run in the sandbox then are marked
complete; every other task runs through the engine (`spec.run` probing
collapsed into `EngineOps.runTask`). -/
def runTaskRT {σ : Type} (ops : EngineOps σ) (s : σ) (t : EngTask) :
    Except String σ :=
  if isScriptTaskRT t then
    match runScriptTaskRT ops s t with
    | .error e => .error e
    | .ok s' => .ok (ops.completeTask s' t)
  else .ok (ops.runTask s t)

/-- One pass of the `for task in ready_tasks` loop inside `_run_until_waiting`:
waiting tasks are skipped, a `ScriptTaskExecutionError` aborts the whole run
immediately (carrying the state at the failure), and `progressed` records
whether any task ran. -/
def runPass {σ : Type} (ops : EngineOps σ) :
    σ → List EngTask → Bool → Except (σ × String) (σ × Bool)
  | s, [], progressed => .ok (s, progressed)
  | s, t :: rest, progressed =>
    if isWaitingTaskRT t then runPass ops s rest progressed
    else
      match runTaskRT ops s t with
      | .error e => .error (s, e)
      | .ok s' => runPass ops s' rest true

/-- Source `_has_waiting_tasks`. -/
def hasWaitingTasksRT {σ : Type} (ops : EngineOps σ) (s : σ) : Bool :=
  (ops.readyTasks s).any isWaitingTaskRT

/-- Source `_determine_status` (the `is_completed`/`is_complete` probing is
collapsed into `EngineOps.isCompleted`). -/
def determineStatus {σ : Type} (ops : EngineOps σ) (s : σ) : String :=
  if hasWaitingTasksRT ops s then "waiting"
  else if ops.isCompleted s then "completed"
  else if (ops.readyTasks s).isEmpty then "completed"
  else "running"

/-- Source `_run_until_waiting`.  The `while True` loop is bounded by `fuel`;
running out of fuel exits the loop like an unproductive pass would (the claims
below only rely on behavior within the supplied fuel). -/
def runUntilWaiting {σ : Type} (ops : EngineOps σ) :
    Nat → σ → String × Option String × σ
  | 0, s => (determineStatus ops s, none, s)
  | fuel + 1, s =>
    let readyTasks := ops.readyTasks s
    if readyTasks.isEmpty then (determineStatus ops s, none, s)
    else
      match runPass ops s readyTasks false with
      | .error (se, msg) => ("failed", some msg, se)
      | .ok (s', progressed) =>
        if progressed then runUntilWaiting ops fuel s'
        else (determineStatus ops s', none, s')

/-- Source `_collect_waiting_user_tasks`. -/
def collectWaitingUserTasksRT {σ : Type} (ops : EngineOps σ) (s : σ) :
    List UserTaskSnapshot :=
  ((ops.readyTasks s).filter isWaitingTaskRT).filterMap (fun t =>
    let specType := match t.spec with
      | some sp => sp.className
      | none => ""
    let specName := match t.spec with
      | some sp => sp.name
      | none => ""
    if !userWaitingTaskSpecNames.contains specType then none
    else some { taskId := t.id,
                name := if t.name ≠ "" then t.name else specName,
                taskType := specType })

/-- Source `_collect_waiting_service_tasks` (only `ServiceTask` specs are
surfaced; `SendTask`/`ExternalTask` park without being materialized). -/
def collectWaitingServiceTasksRT {σ : Type} (ops : EngineOps σ) (s : σ) :
    List ServiceTaskSnapshot :=
  ((ops.readyTasks s).filter isWaitingTaskRT).filterMap (fun t =>
    let specType := match t.spec with
      | some sp => sp.className
      | none => ""
    let specName := match t.spec with
      | some sp => sp.name
      | none => ""
    let specElementId := match t.spec with
      | some sp => sp.bpmnId
      | none => ""
    if specType ≠ "ServiceTask" then none
    else some { taskId := t.id,
                name := if t.name ≠ "" then t.name else specName,
                taskType := specType,
                elementId := specElementId,
                elementName := specName })

/-- The shared tail of `start_workflow_from_definition` and
`resume_workflow_from_state`: run until waiting, empty both snapshot lists on
failure, serialize the final state. -/
def runAndSnapshot {σ : Type} (ops : EngineOps σ) (fuel : Nat) (s : σ) :
    WorkflowRunResult :=
  let r := runUntilWaiting ops fuel s
  { status := r.1,
    serializedState := ops.serialize r.2.2,
    waitingUserTasks :=
      if r.1 = "failed" then [] else collectWaitingUserTasksRT ops r.2.2,
    waitingServiceTasks :=
      if r.1 = "failed" then [] else collectWaitingServiceTasksRT ops r.2.2,
    errorMessage := r.2.1 }

/-- Source `_attach_identifiers`. -/
def attachIdentifiers {σ : Type} (ops : EngineOps σ) (s : σ)
    (correlationId businessKey : String) : σ :=
  let s1 := if correlationId ≠ "" then ops.attachData s "correlation_id" correlationId
    else s
  if businessKey ≠ "" then ops.attachData s1 "business_key" businessKey else s1

/-- Source `start_workflow_from_definition`, given the engine state `s0` that
`_build_workflow` produced from the definition version. -/
def startWorkflowFromDefinition {σ : Type} (ops : EngineOps σ) (fuel : Nat)
    (s0 : σ) (correlationId businessKey : String) : WorkflowRunResult :=
  runAndSnapshot ops fuel (attachIdentifiers ops s0 correlationId businessKey)

/-- Source `_find_ready_task_by_id`: the engine lookup first (exceptions and
misses both yield `none`), then a scan of the ready tasks by string id. -/
def findReadyTaskById {σ : Type} (ops : EngineOps σ) (s : σ) (taskId : String) :
    Option EngTask :=
  match ops.getTaskFromId s taskId with
  | some t => some t
  | none => (ops.readyTasks s).find? (fun t => t.id == taskId)

/-- Source `resume_workflow_from_state`, given the engine state `s0` that
`_load_workflow_from_state` rebuilt from the serialized state.  A non-empty
`completed_task_id` that matches no task raises `WorkflowRuntimeError`
(`Except.error`) before any task runs. -/
def resumeWorkflowFromState {σ : Type} (ops : EngineOps σ) (fuel : Nat) (s0 : σ)
    (completedTaskId : Option String) (taskResult : Option Json)
    (correlationId businessKey : String) : Except String WorkflowRunResult :=
  let s := attachIdentifiers ops s0 correlationId businessKey
  match completedTaskId with
  | some tid =>
    if tid ≠ "" then
      match findReadyTaskById ops s tid with
      | none => .error "Task not found in workflow state."
      | some t =>
        let s1 := applyTaskResult ops s t taskResult
        let s2 := ops.completeTask s1 t
        .ok (runAndSnapshot ops fuel s2)
    else .ok (runAndSnapshot ops fuel s)
  | none => .ok (runAndSnapshot ops fuel s)

/-! ## BPMN validator (`bpmn.py`)

XML documents are modelled as element trees with raw tag strings
(`"{namespace}local"` or plain), exactly what `xml.etree.ElementTree` hands to
`_split_tag`. -/

mutual

inductive XmlElem where
  | mk (tag : String) (attrs : List (String × String)) (children : XmlForest)
deriving DecidableEq

inductive XmlForest where
  | nil
  | cons (head : XmlElem) (tail : XmlForest)
deriving DecidableEq

end

/-- Raw tag of an element. -/
def XmlElem.tag : XmlElem → String
  | .mk t _ _ => t

/-- Attribute list (`element.attrib.items()`, raw attribute names). -/
def XmlElem.attrs : XmlElem → List (String × String)
  | .mk _ a _ => a

/-- Child elements in document order. -/
def XmlElem.children : XmlElem → XmlForest
  | .mk _ _ cs => cs

/-- Source `_split_tag`: `"{ns}local"` splits at the first closing brace,
anything else has no namespace. -/
def splitTag (tag : String) : Option String × String :=
  match tag.data with
  | [] => (none, tag)
  | c :: rest =>
    if c = Char.ofNat 123 then
      let ns := String.mk (rest.takeWhile (fun ch => ch ≠ Char.ofNat 125))
      match rest.dropWhile (fun ch => ch ≠ Char.ofNat 125) with
      | [] => (some ns, "")
      | _ :: after => (some ns, String.mk after)
    else (none, tag)

/-- Python `element.attrib.get(key, default)` (raw attribute names). -/
def attribGet (e : XmlElem) (key : String) (default : String) : String :=
  match e.attrs.lookup key with
  | some v => v
  | none => default

mutual

/-- Python `root.iter()`: the element and all descendants in document order. -/
def xmlIter : XmlElem → List XmlElem
  | .mk t a cs => .mk t a cs :: xmlIterForest cs

/-- Document-order elements of a forest. -/
def xmlIterForest : XmlForest → List XmlElem
  | .nil => []
  | .cons e rest => xmlIter e ++ xmlIterForest rest

end

/-- Bump a per-local-name sibling counter (`counts[child_local] = index + 1`). -/
def bumpCount (counts : List (String × Nat)) (key : String) (value : Nat) :
    List (String × Nat) :=
  match counts with
  | [] => [(key, value)]
  | (k, v) :: rest =>
    if k = key then (k, value) :: rest else (k, v) :: bumpCount rest key value

mutual

/-- Source `_iter_elements_with_paths` for one element already assigned `path`. -/
def pathsOfElem : XmlElem → String → List (XmlElem × String)
  | .mk t a cs, path => (.mk t a cs, path) :: pathsOfForest cs path []

/-- Source `_iter_child_elements`: paths are
`parent.childLocal[index-within-parent-by-local-name]`. -/
def pathsOfForest : XmlForest → String → List (String × Nat) →
    List (XmlElem × String)
  | .nil, _, _ => []
  | .cons child rest, parentPath, counts =>
    let childLocal := (splitTag child.tag).2
    let index := match counts.lookup childLocal with
      | some n => n
      | none => 0
    let childPath := parentPath ++ "." ++ childLocal ++ "[" ++ toString index ++ "]"
    pathsOfElem child childPath ++
      pathsOfForest rest parentPath (bumpCount counts childLocal (index + 1))

end

/-- Source `_iter_elements_with_paths` from the root (the root's path is its
own local name). -/
def iterElementsWithPaths (root : XmlElem) : List (XmlElem × String) :=
  pathsOfElem root (splitTag root.tag).2

/-- Source `BPMN_MODEL_NS`. -/
def bpmnModelNs : String := "http://www.omg.org/spec/BPMN/20100524/MODEL"

/-- Source `BPMN_DI_NS`. -/
def bpmnDiNs : String := "http://www.omg.org/spec/BPMN/20100524/DI"

/-- Source `DI_NS`. -/
def diNs : String := "http://www.omg.org/spec/DD/20100524/DI"

/-- Source `DC_NS`. -/
def dcNs : String := "http://www.omg.org/spec/DD/20100524/DC"

/-- Source `ALLOWED_NON_BPMN_NAMESPACES`. -/
def allowedNonBpmnNamespaces : List String := [bpmnDiNs, diNs, dcNs]

/-- Source `SUPPORTED_BPMN_ELEMENTS_V1`. -/
def supportedBpmnElementsV1 : List String :=
  ["definitions", "process", "startEvent", "endEvent", "sequenceFlow",
   "exclusiveGateway", "parallelGateway", "userTask", "serviceTask",
   "scriptTask", "sendTask", "subProcess", "incoming", "outgoing",
   "extensionElements", "documentation", "text", "conditionExpression",
   "script"]

/-- Source `UNSUPPORTED_BPMN_ELEMENT_MESSAGES`. -/
def unsupportedBpmnElementMessages : List (String × String) :=
  [("boundaryEvent", "Boundary events are not supported."),
   ("timerEventDefinition", "Timer events are not supported."),
   ("messageEventDefinition", "Message events are not supported."),
   ("signalEventDefinition", "Signal events are not supported."),
   ("multiInstanceLoopCharacteristics", "Multi-instance is not supported."),
   ("compensateEventDefinition", "Compensation is not supported.")]

/-- Source `FORM_SCHEMA_ATTRIBUTE_NAMES`. -/
def formSchemaAttributeNames : List String :=
  ["formKey", "formRef", "formId", "schemaRef", "schemaId"]

/-- Source `CATALOG_BINDING_ATTRIBUTE_MARKERS`. -/
def catalogBindingAttributeMarkers : List String :=
  ["catalog", "capability", "binding"]

/-- A validation error record `{path, code, message}`. -/
structure BpmnError where
  path : String
  code : String
  message : String
deriving DecidableEq

/-- Sort key comparison on `(path, code, message)` (Python tuple `<=`). -/
def bpmnErrorLe (a b : BpmnError) : Bool :=
  if charsLt a.path.data b.path.data then true
  else if charsLt b.path.data a.path.data then false
  else if charsLt a.code.data b.code.data then true
  else if charsLt b.code.data a.code.data then false
  else !(charsLt b.message.data a.message.data)

/-- Stable insertion into a sorted error list. -/
def insertErrorSorted (e : BpmnError) : List BpmnError → List BpmnError
  | [] => [e]
  | x :: rest =>
    if bpmnErrorLe e x then e :: x :: rest else x :: insertErrorSorted e rest

/-- Source `_sorted_errors` (stable sort by `(path, code, message)`). -/
def sortedErrors : List BpmnError → List BpmnError
  | [] => []
  | x :: rest => insertErrorSorted x (sortedErrors rest)

/-- An extracted form-schema reference. -/
structure FormSchemaRef where
  elementId : String
  elementType : String
  formKey : String
deriving DecidableEq

/-- An extracted catalog-binding placeholder. -/
structure CatalogBindingPlaceholder where
  elementId : String
  elementName : String
  elementType : String
  placeholders : List (String × String)
deriving DecidableEq

/-- Source `BpmnDefinitionSnapshot`. -/
structure BpmnDefinitionSnapshot where
  processKey : String
  processName : String
  formSchemaRefs : List FormSchemaRef
  catalogBindingPlaceholders : List CatalogBindingPlaceholder
deriving DecidableEq

/-- Source `_collect_form_schema_refs`. -/
def collectFormSchemaRefs (root : XmlElem) : List FormSchemaRef :=
  (xmlIter root).flatMap (fun e =>
    let elementType := (splitTag e.tag).2
    let elementId := attribGet e "id" ""
    e.attrs.filterMap (fun av =>
      let attrLocal := (splitTag av.1).2
      if formSchemaAttributeNames.contains attrLocal ∧ av.2 ≠ "" then
        some { elementId := elementId, elementType := elementType,
               formKey := av.2 }
      else none))

/-- Source `_collect_catalog_binding_placeholders`: only `serviceTask` elements
in the BPMN model namespace contribute, keeping the attributes whose lowercased
local names contain one of the markers. -/
def collectCatalogBindingPlaceholders (root : XmlElem) :
    List CatalogBindingPlaceholder :=
  (xmlIter root).filterMap (fun e =>
    let ns := (splitTag e.tag).1
    let localName := (splitTag e.tag).2
    if ns ≠ some bpmnModelNs ∨ localName ≠ "serviceTask" then none
    else
      let attrs := e.attrs.filterMap (fun av =>
        let attrLocal := (splitTag av.1).2
        if catalogBindingAttributeMarkers.any
            (fun m => pyContains (pyLower attrLocal) m) then
          some (attrLocal, av.2)
        else none)
      if attrs = [] then none
      else some { elementId := attribGet e "id" "",
                  elementName := attribGet e "name" "",
                  elementType := localName, placeholders := attrs })

/-- The `process`-element scan of `validate_bpmn_xml`: errors plus the
extracted `(process_key, process_name)` (blank unless exactly one process with
a non-blank id exists). -/
def bpmnProcessHeader : List XmlElem → List BpmnError × String × String
  | [] => ([{ path := "process", code := "missing_process_key",
              message := "Process id is required." }], "", "")
  | [p] =>
    let key := pyStrip (attribGet p "id" "")
    let name := attribGet p "name" ""
    if key = "" then
      ([{ path := "process", code := "missing_process_key",
          message := "Process id is required." }], key, name)
    else ([], key, name)
  | _ :: _ :: _ =>
    ([{ path := "process", code := "multiple_processes",
        message := "Only one process is supported." }], "", "")

/-- The per-element loop of `validate_bpmn_xml`: unsupported BPMN elements and
`isForCompensation="true"` attributes; foreign namespaces pass silently. -/
def bpmnElementErrors (root : XmlElem) : List BpmnError :=
  (iterElementsWithPaths root).flatMap (fun ep =>
    let ns := (splitTag ep.1.tag).1
    let localName := (splitTag ep.1.tag).2
    if ns = some bpmnModelNs then
      (match unsupportedBpmnElementMessages.lookup localName with
       | some msg =>
         [{ path := ep.2, code := "unsupported_bpmn_element", message := msg }]
       | none =>
         if !supportedBpmnElementsV1.contains localName then
           [{ path := ep.2, code := "unsupported_bpmn_element",
              message := "Unsupported BPMN element: " ++ localName ++ "." }]
         else []) ++
      ep.1.attrs.filterMap (fun av =>
        let attrLocal := (splitTag av.1).2
        if attrLocal = "isForCompensation" ∧ pyLower av.2 = "true" then
          some { path := ep.2, code := "unsupported_bpmn_element",
                 message := "Compensation is not supported." }
        else none)
    else [])

/-- Elements that are a `process` in the BPMN model namespace. -/
def bpmnProcessElements (root : XmlElem) : List XmlElem :=
  (xmlIter root).filter (fun e =>
    decide ((splitTag e.tag).1 = some bpmnModelNs)
      && decide ((splitTag e.tag).2 = "process"))

/-- Source `validate_bpmn_xml` after a successful `ET.fromstring`. -/
def validateBpmnParsed (root : XmlElem) :
    Option BpmnDefinitionSnapshot × List BpmnError :=
  let headerRes := bpmnProcessHeader (bpmnProcessElements root)
  let errors := headerRes.1 ++ bpmnElementErrors root
  if errors ≠ [] then (none, sortedErrors errors)
  else
    (some { processKey := headerRes.2.1, processName := headerRes.2.2,
            formSchemaRefs := collectFormSchemaRefs root,
            catalogBindingPlaceholders := collectCatalogBindingPlaceholders root },
     [])

/-- Source `validate_bpmn_xml`: `ET.fromstring` is the standard-library XML
parser, so its outcome (`none` on `ParseError`) is an input of the model. -/
def validateBpmnXml (parseOutcome : Option XmlElem) :
    Option BpmnDefinitionSnapshot × List BpmnError :=
  match parseOutcome with
  | none =>
    (none, [{ path := "", code := "invalid_bpmn_xml",
              message := "Invalid BPMN XML." }])
  | some root => validateBpmnParsed root

/-! ## Concrete fixtures used by witnesses and counterexamples -/

/-- Elements of a `JsonArr` as a list. -/
def JsonArr.toList : JsonArr → List Json
  | .nil => []
  | .cons v rest => v :: rest.toList

/-- A trivial engine over the unit state: no ready tasks, lookups miss. -/
def unitEngineOps : EngineOps Unit where
  readyTasks _ := []
  getTaskFromId _ _ := none
  runTask s _ := s
  completeTask s _ := s
  execScript s _ _ := .ok (s, none)
  isCompleted _ := true
  serialize _ := Json.objOf []
  attachData s _ _ := s
  applyResult s _ _ := s

/-- A workflow instance fixture. -/
def instFx : WorkflowInstanceRow :=
  { id := 7, status := "waiting", correlationId := "corr-1",
    businessKey := "bk-1", serializedState := Json.objOf [], updatedAt := 0 }

/-- A catalog service-task row fixture. -/
def catFx : CatalogServiceTaskRow :=
  { catalogEntryExternalId := "cap_leave", externalId := "send_email",
    name := "Send email", url := "http://tenant.example/send" }

/-- A pending, already-bound service-task row fixture. -/
def svcPendingFx : ServiceTaskRow :=
  { id := 3, workflowInstanceId := 7, taskId := "ServiceTask_Notify",
    name := "Notify", taskType := "ServiceTask",
    elementId := "ServiceTask_Notify", elementName := "Notify",
    status := "pending", executionMode := "",
    catalogServiceTask := some catFx, requestPayload := Json.objOf [],
    responsePayload := Json.objOf [], lastError := "", startedAt := none,
    completedAt := none, createdAt := 0, updatedAt := 0 }

/-- The same task already completed. -/
def svcCompletedFx : ServiceTaskRow :=
  { svcPendingFx with status := "completed" }

/-- The same task parked waiting for a callback. -/
def svcWaitingFx : ServiceTaskRow :=
  { svcPendingFx with status := "waiting", executionMode := "async" }

/-- An unbound pending service task (no catalog row attached). -/
def svcUnboundFx : ServiceTaskRow :=
  { svcPendingFx with catalogServiceTask := none }

/-- Orchestrator state around `svcPendingFx`. -/
def orchStFx : OrchestratorSt :=
  { serviceTask? := some svcPendingFx, workflowInstance := instFx,
    userTasks := [], serviceTasks := [svcPendingFx], catalog := [catFx],
    placeholders := Json.arr .nil, callbackIdem := [], audit := [],
    processKey := "leave_request_v1", version := 1 }

/-- Orchestrator state around the completed task. -/
def orchStCompletedFx : OrchestratorSt :=
  { orchStFx with serviceTask? := some svcCompletedFx }

/-- Orchestrator state around the waiting task. -/
def orchStWaitingFx : OrchestratorSt :=
  { orchStFx with serviceTask? := some svcWaitingFx }

/-- Orchestrator state around the unbound task, with no catalog and no
placeholders. -/
def orchStUnboundFx : OrchestratorSt :=
  { orchStFx with serviceTask? := some svcUnboundFx, catalog := [],
                  placeholders := Json.arr .nil }

/-- Orchestrator state with no addressed service task. -/
def orchStMissingFx : OrchestratorSt :=
  { orchStFx with serviceTask? := none }

/-- An empty HTTP body (parses to `{}`). -/
def emptyBodyFx : RawBody :=
  { bytes := [], parsed := none, decoded := "" }

/-- A body that is not valid JSON: the single byte `a`. -/
def rawBodyFx : RawBody :=
  { bytes := strUtf8 "a", parsed := none, decoded := "a" }

/-- A run-result fixture (what a resume may return). -/
def rrFx : WorkflowRunResult :=
  { status := "completed", serializedState := Json.objOf [("done", .bool true)],
    waitingUserTasks := [], waitingServiceTasks := [], errorMessage := none }

/-- A completed user-task row fixture. -/
def userDoneFx : UserTaskRow :=
  { id := 1, workflowInstanceId := 7, taskId := "UserTask_Approve",
    name := "Approve", taskType := "UserTask", status := "completed",
    actorIdentity := "u@x", action := "approve", actionData := Json.objOf [],
    completedAt := some 0, createdAt := 0, updatedAt := 0 }

/-- A stored idempotency record for `userDoneFx`, hashed over the approve
request. -/
def userIdemFx : UserTaskIdemRow :=
  { userTaskId := 1, idempotencyKey := "ut-1",
    requestHash := userTaskRequestHash "u@x" "approve"
      (Json.objOf [("approved", .bool true)]),
    responsePayload := Json.objOf [("cached", .bool true)] }

/-- User-task completion state around `userDoneFx` and `userIdemFx`. -/
def userStFx : UserTaskCompleteSt :=
  { task? := some userDoneFx, workflowInstance := instFx,
    idemRows := [userIdemFx], audit := [] }

/-- Catalog row resolved by the C5 placeholder fixture. -/
def c5RowFx : CatalogServiceTaskRow :=
  { catalogEntryExternalId := "c1", externalId := "t1", name := "T",
    url := "http://tenant.example/t1" }

/-- A placeholder naming element `B` (and a non-empty element name) that still
gets selected for a task with element id `A` and empty element name. -/
def c5PhFx : Json :=
  Json.objOf
    [("element_id", .str "B"), ("element_name", .str "other"),
     ("element_type", .str "serviceTask"),
     ("placeholders", Json.objOf
       [("catalog_id", .str "c1"), ("task_id", .str "t1")])]

/-- The stored placeholder list containing only `c5PhFx`. -/
def c5PlaceholdersFx : Json := .arr (.cons c5PhFx .nil)

/-- A ScriptTask engine task whose spec carries no script source. -/
def scriptTaskFx : EngTask :=
  { id := "S1", name := "Compute",
    spec := some { className := "ScriptTask", manual := false,
                   name := "Compute", bpmnId := "ScriptTask_1",
                   script := none } }

/-- An engine over the unit state whose only ready task is `scriptTaskFx`. -/
def scriptEngineOps : EngineOps Unit where
  readyTasks _ := [scriptTaskFx]
  getTaskFromId _ _ := none
  runTask s _ := s
  completeTask s _ := s
  execScript s _ _ := .ok (s, none)
  isCompleted _ := false
  serialize _ := Json.objOf []
  attachData s _ _ := s
  applyResult s _ _ := s

/-- BPMN fixture: a `serviceTask` element with one catalog-binding attribute. -/
def c8ServiceTaskFx : XmlElem :=
  .mk ("\x7b" ++ bpmnModelNs ++ "\x7dserviceTask")
    [("id", "ServiceTask_Notify"), ("name", "Notify"),
     ("catalogEntryId", "cap_leave")] .nil

/-- BPMN fixture: the process element. -/
def c8ProcessFx : XmlElem :=
  .mk ("\x7b" ++ bpmnModelNs ++ "\x7dprocess") [("id", "leave_request_v1")]
    (.cons c8ServiceTaskFx .nil)

/-- BPMN fixture: the definitions root. -/
def c8RootFx : XmlElem :=
  .mk ("\x7b" ++ bpmnModelNs ++ "\x7ddefinitions") [] (.cons c8ProcessFx .nil)

/-- The snapshot the validator extracts from `c8RootFx`. -/
def c8SnapFx : BpmnDefinitionSnapshot :=
  { processKey := "leave_request_v1", processName := "",
    formSchemaRefs := [],
    catalogBindingPlaceholders :=
      [{ elementId := "ServiceTask_Notify", elementName := "Notify",
         elementType := "serviceTask",
         placeholders := [("catalogEntryId", "cap_leave")] }] }

/-- The row `serviceTaskStartPhase1` produces from `svcPendingFx` at t=11. -/
def svcStartedFx : ServiceTaskRow :=
  { svcPendingFx with
      catalogServiceTask := some catFx, requestPayload := Json.objOf [],
      executionMode := "sync", status := "in_progress", startedAt := some 11,
      lastError := "", updatedAt := 11 }

/-- Modelled from the spec: **Canonical JSON** — sorted keys, UTF-8, ASCII
escaping, compact separators — the encoding the spec asserts for outbound
bodies, as a reference to compare with the code's `serviceTaskRequestBody`. -/
def specCanonicalJson (v : Json) : String := jsonDumps true v

/-! ## Shared lemmas -/

/-- A compression round preserves the state length. -/
theorem sha256Round_length (st : List Nat) (kw : Nat × Nat) :
    (sha256Round st kw).length = st.length := by
  unfold sha256Round
  split <;> simp

/-- Folding compression rounds preserves the state length. -/
theorem sha256Rounds_length (l : List (Nat × Nat)) :
    ∀ h : List Nat, (l.foldl sha256Round h).length = h.length := by
  induction l with
  | nil => intro h; rfl
  | cons x xs ih =>
    intro h
    rw [List.foldl_cons, ih (sha256Round h x), sha256Round_length]

/-- Processing a chunk preserves the hash-state length. -/
theorem sha256Chunk_length (h c : List Nat) :
    (sha256Chunk h c).length = h.length := by
  unfold sha256Chunk
  simp [sha256Rounds_length]

/-- Folding chunks preserves the hash-state length. -/
theorem sha256Chunks_foldl_length (cs : List (List Nat)) :
    ∀ h : List Nat, (cs.foldl sha256Chunk h).length = h.length := by
  induction cs with
  | nil => intro h; rfl
  | cons c rest ih =>
    intro h
    rw [List.foldl_cons, ih (sha256Chunk h c), sha256Chunk_length]

/-- A SHA-256 digest is never the empty byte list. -/
theorem sha256_ne_nil (m : List Nat) : sha256 m ≠ [] := by
  rw [sha256]
  have h8 : ((sha256Chunks (sha256Pad m).length (sha256Pad m)).foldl
      sha256Chunk sha256H0).length = 8 := by
    rw [sha256Chunks_foldl_length]
    rfl
  rcases hfin : (sha256Chunks (sha256Pad m).length (sha256Pad m)).foldl
      sha256Chunk sha256H0 with _ | ⟨a, rest⟩
  · rw [hfin] at h8
    simp at h8
  · simp [wordBytes]

/-- The hex rendering of a non-empty byte list is a non-empty string. -/
theorem hexDigest_ne_empty {l : List Nat} (h : l ≠ []) : hexDigest l ≠ "" := by
  cases l with
  | nil => exact absurd rfl h
  | cons b rest =>
    intro heq
    have hdata := congrArg String.data heq
    simp [hexDigest] at hdata

/-- A callback signature is never the empty string (it is 64 hex digits). -/
theorem callbackSignature_ne_empty (k : String) (b : List Nat) (t : String) :
    callbackSignature k b t ≠ "" := by
  rw [callbackSignature]
  exact hexDigest_ne_empty (by rw [hmacSha256]; exact sha256_ne_nil _)

/-- Lead-match of a character list against itself. -/
theorem charsLeadMatch_refl (l : List Char) : charsLeadMatch l l = true := by
  induction l with
  | nil => rfl
  | cons c rest ih => simp [charsLeadMatch, ih]

/-- Containment is preserved by prepending characters. -/
theorem charsContains_append_right (p ys : List Char)
    (h : charsContains p ys = true) :
    ∀ xs, charsContains p (xs ++ ys) = true := by
  intro xs
  induction xs with
  | nil => simpa using h
  | cons x rest ih =>
    rw [List.cons_append, charsContains]
    split
    · rfl
    · exact ih

/-- A non-empty character list contains itself. -/
theorem charsContains_self (p : List Char) (h : p ≠ []) :
    charsContains p p = true := by
  cases p with
  | nil => exact absurd rfl h
  | cons c rest => simp [charsContains, charsLeadMatch_refl]

/-- Any string contains its non-empty suffix. -/
theorem pyContains_append_self (a p : String) (h : p ≠ "") :
    pyContains (a ++ p) p = true := by
  have hp : p.data ≠ [] := by
    intro hnil
    exact h (congrArg String.mk hnil)
  rw [pyContains]
  rw [if_neg hp]
  have hdata : (a ++ p).data = a.data ++ p.data := rfl
  rw [hdata]
  exact charsContains_append_right p.data p.data (charsContains_self p.data hp) a.data

/-- Joining a list that ends in `d` yields a string ending in `d`. -/
theorem pyJoin_ends_with (sep : String) (d : String) :
    ∀ xs : List String, ∃ a, pyJoin sep (xs ++ [d]) = a ++ d := by
  intro xs
  induction xs with
  | nil =>
    refine ⟨"", ?_⟩
    have : ("" : String) ++ d = d := rfl
    rw [this]
    rfl
  | cons x rest ih =>
    rcases rest with _ | ⟨y, t⟩
    · exact ⟨x ++ sep, rfl⟩
    · obtain ⟨a, ha⟩ := ih
      refine ⟨x ++ sep ++ a, ?_⟩
      have h1 : pyJoin sep ((x :: y :: t) ++ [d]) =
          x ++ sep ++ pyJoin sep ((y :: t) ++ [d]) := rfl
      rw [h1, ha]
      simp [String.append_assoc]

/-- The `missing script` error message contains the words `missing script`. -/
theorem formatScriptError_contains (t : EngTask) :
    pyContains (formatScriptError t "missing script") "missing script" = true := by
  rw [formatScriptError]
  have hparts :
      (if t.name ≠ "" then ["name=" ++ t.name] else []) ++
        (if t.id ≠ "" then ["id=" ++ t.id] else []) ++
        (if ("missing script" : String) ≠ "" then ["missing script"] else []) =
      ((if t.name ≠ "" then ["name=" ++ t.name] else []) ++
        (if t.id ≠ "" then ["id=" ++ t.id] else [])) ++ ["missing script"] := by
    rw [if_pos (by decide : ("missing script" : String) ≠ "")]
    try rw [List.append_assoc]
  rw [hparts]
  obtain ⟨a, ha⟩ := pyJoin_ends_with ", " "missing script"
    ((if t.name ≠ "" then ["name=" ++ t.name] else []) ++
      (if t.id ≠ "" then ["id=" ++ t.id] else []))
  rw [ha]
  have hassoc : "ScriptTask execution failed" ++ ": " ++ (a ++ "missing script")
      = ("ScriptTask execution failed" ++ ": " ++ a) ++ "missing script" := by
    simp [String.append_assoc]
  rw [hassoc]
  exact pyContains_append_self _ _ (by decide)

/-- Appending task lists to a pass: the left segment runs first; its failure
short-circuits, its success state feeds the right segment. -/
theorem runPass_append {σ : Type} (ops : EngineOps σ) (xs ys : List EngTask) :
    ∀ (s : σ) (p : Bool), runPass ops s (xs ++ ys) p =
      match runPass ops s xs p with
      | .ok sp => runPass ops sp.1 ys sp.2
      | .error e => .error e := by
  induction xs with
  | nil => intro s p; simp [runPass]
  | cons t rest ih =>
    intro s p
    rw [List.cons_append]
    by_cases hw : isWaitingTaskRT t = true
    · rw [runPass, if_pos hw, runPass, if_pos hw]
      exact ih s p
    · rw [runPass, if_neg hw, runPass, if_neg hw]
      cases runTaskRT ops s t with
      | error e => rfl
      | ok s' => exact ih s' true

/-! ## Claims -/

/-- C10: for every resume call with a non-empty `completed_task_id` that
identifies no task of the loaded workflow — neither through the engine's
`get_task_from_id` lookup nor among the ready tasks by string id —
`resume_workflow_from_state` raises `WorkflowRuntimeError` with message
`Task not found in workflow state.` before executing any task, so no new state
is produced. -/
theorem c10_resume_unknown_task_errors {σ : Type} (ops : EngineOps σ)
    (fuel : Nat) (s0 : σ) (tid : String) (taskResult : Option Json)
    (corr bk : String) (htid : tid ≠ "")
    (hlookup : ops.getTaskFromId (attachIdentifiers ops s0 corr bk) tid = none)
    (hready : ∀ t ∈ ops.readyTasks (attachIdentifiers ops s0 corr bk),
      t.id ≠ tid) :
    resumeWorkflowFromState ops fuel s0 (some tid) taskResult corr bk
      = .error "Task not found in workflow state." := by
  rw [resumeWorkflowFromState]
  simp only [if_pos htid]
  have hfind : findReadyTaskById ops (attachIdentifiers ops s0 corr bk) tid = none := by
    rw [findReadyTaskById, hlookup]
    simp only []
    rw [List.find?_eq_none]
    intro t ht
    simp only [beq_iff_eq]
    exact hready t ht
  rw [hfind]

/-- Witness for C10 at a concrete engine with no ready tasks. -/
theorem c10_witness :
    resumeWorkflowFromState unitEngineOps 1 () (some "T1") none "" ""
      = .error "Task not found in workflow state." :=
  c10_resume_unknown_task_errors unitEngineOps 1 () "T1" none "" ""
    (by decide) rfl (by intro t ht; simp [unitEngineOps] at ht)


/-- A clean process-header scan means exactly one process with a non-blank id
was found, and the extracted key is non-blank. -/
theorem bpmnProcessHeader_key_of_clean (pes : List XmlElem)
    (h : (bpmnProcessHeader pes).1 = []) : (bpmnProcessHeader pes).2.1 ≠ "" := by
  rcases pes with _ | ⟨p, _ | ⟨q, rest⟩⟩
  · simp [bpmnProcessHeader] at h
  · by_cases hk : pyStrip (attribGet p "id" "") = ""
    · simp [bpmnProcessHeader, hk] at h
    · simp [bpmnProcessHeader, hk]
  · simp [bpmnProcessHeader] at h

/-- Every collected catalog-binding placeholder comes from a `serviceTask`
element and keeps only marker-matching attributes. -/
theorem collectCatalogBindingPlaceholders_shape (root : XmlElem)
    (ph : CatalogBindingPlaceholder)
    (hph : ph ∈ collectCatalogBindingPlaceholders root) :
    ph.elementType = "serviceTask" ∧
    ∀ kv ∈ ph.placeholders,
      catalogBindingAttributeMarkers.any
        (fun m => pyContains (pyLower kv.1) m) = true := by
  rw [collectCatalogBindingPlaceholders, List.mem_filterMap] at hph
  obtain ⟨e, _, he⟩ := hph
  by_cases hsvc : (splitTag e.tag).1 ≠ some bpmnModelNs ∨ (splitTag e.tag).2 ≠ "serviceTask"
  · rw [if_pos hsvc] at he
    exact absurd he (by simp)
  · rw [if_neg hsvc] at he
    push_neg at hsvc
    by_cases hempty : e.attrs.filterMap (fun av =>
        if catalogBindingAttributeMarkers.any
            (fun m => pyContains (pyLower (splitTag av.1).2) m) then
          some ((splitTag av.1).2, av.2)
        else none) = []
    · rw [if_pos hempty] at he
      exact absurd he (by simp)
    · rw [if_neg hempty] at he
      have hph' := Option.some.inj he
      refine ⟨by rw [← hph']; exact hsvc.2, ?_⟩
      intro kv hkv
      rw [← hph'] at hkv
      simp only [] at hkv
      rw [List.mem_filterMap] at hkv
      obtain ⟨av, _, hav⟩ := hkv
      by_cases hm : catalogBindingAttributeMarkers.any
          (fun m => pyContains (pyLower (splitTag av.1).2) m) = true
      · rw [if_pos hm] at hav
        have hkv' := Option.some.inj hav
        rw [← hkv']
        exact hm
      · rw [if_neg hm] at hav
        exact absurd hav (by simp)

/-- C8: whenever validation succeeds (`validate_bpmn_xml` returns a snapshot
and an empty error list), the snapshot's `process_key` is a non-empty string
and every entry of `catalog_binding_placeholders` was extracted from a
`serviceTask` element in the BPMN model namespace: its `element_type` is
`serviceTask` and each kept placeholder attribute has a lowercased local name
containing `catalog`, `capability` or `binding`. -/
theorem c8_valid_snapshot (parseOutcome : Option XmlElem)
    (snap : BpmnDefinitionSnapshot)
    (h : validateBpmnXml parseOutcome = (some snap, [])) :
    snap.processKey ≠ "" ∧
    ∀ ph ∈ snap.catalogBindingPlaceholders,
      ph.elementType = "serviceTask" ∧
      ∀ kv ∈ ph.placeholders,
        catalogBindingAttributeMarkers.any
          (fun m => pyContains (pyLower kv.1) m) = true := by
  rcases parseOutcome with _ | root
  · exact absurd h (by simp [validateBpmnXml])
  · rw [validateBpmnXml, validateBpmnParsed] at h
    by_cases herr : (bpmnProcessHeader (bpmnProcessElements root)).1
        ++ bpmnElementErrors root ≠ []
    · rw [if_pos herr] at h
      exact absurd (congrArg Prod.fst h) (by simp)
    · rw [if_neg herr] at h
      push_neg at herr
      have hsnap := Option.some.inj (congrArg Prod.fst h)
      have hhdr : (bpmnProcessHeader (bpmnProcessElements root)).1 = [] :=
        (List.append_eq_nil.mp herr).1
      constructor
      · rw [← hsnap]
        exact bpmnProcessHeader_key_of_clean _ hhdr
      · intro ph hph
        rw [← hsnap] at hph
        exact collectCatalogBindingPlaceholders_shape root ph hph

/-- Witness for C8: a concrete one-process document with a bound serviceTask
validates cleanly and satisfies the conclusion. -/
theorem c8_witness :
    c8SnapFx.processKey ≠ "" ∧
    ∀ ph ∈ c8SnapFx.catalogBindingPlaceholders,
      ph.elementType = "serviceTask" ∧
      ∀ kv ∈ ph.placeholders,
        catalogBindingAttributeMarkers.any
          (fun m => pyContains (pyLower kv.1) m) = true :=
  c8_valid_snapshot (some c8RootFx) c8SnapFx (by decide)

/-- C3: for a user-task completion request whose `Idempotency-Key` already has
a record for this tenant — if the record targets the same task and the same
`request_hash` (SHA-256 of the canonical JSON of `{actor, action, data}`), the
stored `response_payload` is replayed unchanged and the state is untouched;
if it targets a different task or a different hash, the request fails with 409
and the state is untouched. -/
theorem c3_user_task_idempotency (st : UserTaskCompleteSt) (pk : String)
    (ver : Nat) (actor action : String) (payload? : Option Json)
    (idemKey? : Option String) (now : Nat) (task : UserTaskRow)
    (record : UserTaskIdemRow)
    (htask : st.task? = some task)
    (hkey : optTruthy idemKey? = true)
    (hrec : st.idemRows.find? (fun r => some r.idempotencyKey == idemKey?)
      = some record) :
    ((record.userTaskId = task.id ∧
        record.requestHash
          = userTaskRequestHash actor action (userTaskActionData payload?)) →
      userTaskCompletePost st pk ver actor action payload? idemKey? now
        = ({ status := 200, body := record.responsePayload }, st)) ∧
    ((record.userTaskId ≠ task.id ∨
        record.requestHash
          ≠ userTaskRequestHash actor action (userTaskActionData payload?)) →
      userTaskCompletePost st pk ver actor action payload? idemKey? now
        = ({ status := 409, body := detailBody "Idempotency key conflict." }, st)) := by
  rw [userTaskCompletePost, htask]
  constructor
  · intro hmatch
    simp only [hkey, if_pos rfl, hrec]
    have hno : ¬(record.userTaskId ≠ task.id ∨
        record.requestHash
          ≠ userTaskRequestHash actor action (userTaskActionData payload?)) := by
      push_neg
      exact ⟨hmatch.1, hmatch.2⟩
    rw [if_neg hno]
    simp
  · intro hmiss
    simp only [hkey, if_pos rfl, hrec]
    rw [if_pos hmiss]
    simp

/-- Witness for C3: replaying the stored approve request returns the cached
payload without changing the state. -/
theorem c3_witness :
    userTaskCompletePost userStFx "leave_request_v1" 1 "u@x" "approve"
      (some (Json.objOf [("approved", .bool true)])) (some "ut-1") 5
      = ({ status := 200, body := Json.objOf [("cached", .bool true)] }, userStFx) :=
  (c3_user_task_idempotency userStFx "leave_request_v1" 1 "u@x" "approve"
    (some (Json.objOf [("approved", .bool true)])) (some "ut-1") 5
    userDoneFx userIdemFx rfl (by decide) rfl).1 ⟨rfl, rfl⟩

/-- C6: a start request against a task whose status is `in_progress`,
`waiting` or `completed` returns 200 with the current serialized task and
leaves the whole tenant state (the `ServiceTask` row and its
`WorkflowInstance` included) unchanged; and whenever the first transaction
does transition a task, the task was `pending` or `failed` and is now
`in_progress` with `started_at` stamped and `last_error` cleared. -/
theorem c6_start_noop_and_transition :
    (∀ (st : OrchestratorSt) (ceid stid : String) (mode? : Option String)
      (payload? : Option Json) (upstream : UpstreamOutcome)
      (resumeFn : Json → String → Json → WorkflowRunResult)
      (url : String) (now now2 : Nat) (task : ServiceTaskRow),
      st.serviceTask? = some task →
      (task.status = "in_progress" ∨ task.status = "waiting"
        ∨ task.status = "completed") →
      serviceTaskStartPost st ceid stid mode? payload? upstream resumeFn url
          now now2
        = ({ status := 200, body := serializeServiceTask task
              st.workflowInstance st.processKey st.version }, st)) ∧
    (∀ (st : OrchestratorSt) (ceid stid mode : String) (payload : Json)
      (now : Nat) (task task1 : ServiceTaskRow) (bound : CatalogServiceTaskRow),
      st.serviceTask? = some task →
      serviceTaskStartPhase1 st ceid stid mode payload now
        = .proceed task1 bound →
      (task.status = "pending" ∨ task.status = "failed") ∧
      task1.status = "in_progress" ∧ task1.startedAt = some now ∧
      task1.lastError = "") := by
  constructor
  · intro st ceid stid mode? payload? upstream resumeFn url now now2 task
      htask hstat
    have hcond : ¬(task.status = "pending" ∨ task.status = "failed") := by
      rcases hstat with h | h | h <;> rw [h] <;> decide
    have hphase : serviceTaskStartPhase1 st (pyStrip ceid) (pyStrip stid)
        (match mode? with | some m => m | none => "sync")
        (coercePayload payload?) now
        = .reject
          { status := 200,
            body := serializeServiceTask task st.workflowInstance
                st.processKey st.version } := by
      rw [serviceTaskStartPhase1, htask]
      simp only [if_pos hcond]
    simp only [serviceTaskStartPost.eq_def, hphase]
  · intro st ceid stid mode payload now task task1 bound htask hproceed
    rw [serviceTaskStartPhase1, htask] at hproceed
    simp only [] at hproceed
    by_cases hcond : task.status = "pending" ∨ task.status = "failed"
    · rw [if_neg (not_not_intro hcond)] at hproceed
      refine ⟨hcond, ?_⟩
      split at hproceed
      all_goals simp at hproceed
      all_goals rw [← hproceed.1]
      all_goals exact ⟨rfl, rfl, rfl⟩
    · rw [if_pos hcond] at hproceed
      exact absurd hproceed (by simp)

/-- Witness for C6: starting the completed task is a no-op 200 on an unchanged
state; the pending task transitions with the stamps. -/
theorem c6_witness :
    (serviceTaskStartPost orchStCompletedFx "" "" none none (.urlError "boom")
        (fun _ _ _ => rrFx) "" 0 0
      = ({ status := 200, body := serializeServiceTask svcCompletedFx
            orchStCompletedFx.workflowInstance orchStCompletedFx.processKey
            orchStCompletedFx.version }, orchStCompletedFx)) ∧
    ((svcPendingFx.status = "pending" ∨ svcPendingFx.status = "failed") ∧
      svcStartedFx.status = "in_progress" ∧ svcStartedFx.startedAt = some 11 ∧
      svcStartedFx.lastError = "") :=
  ⟨c6_start_noop_and_transition.1 orchStCompletedFx "" "" none none
      (.urlError "boom") (fun _ _ _ => rrFx) "" 0 0 svcCompletedFx rfl
      (Or.inr (Or.inr rfl)),
   c6_start_noop_and_transition.2 orchStFx "" "" "sync" (Json.objOf []) 11
      svcPendingFx svcStartedFx catFx rfl (by decide)⟩

/-- C2: when a synchronous service-task dispatch meets an upstream HTTP error
(how `urllib` surfaces a non-2xx status) or a transport error, the task row is
set to `failed` with `last_error` recorded (`service_task_http_error` for HTTP
errors, the URL error text for transport errors), the upstream body is stored
as `response_payload` (non-map bodies wrapped as `{"result": x}` by
`_normalize_result_payload`), `completed_at` is stamped, the owning instance is
set to `failed`, and the response is 502 with the serialized task. -/
theorem c2_sync_dispatch_failure (st : OrchestratorSt) (ceid stid : String)
    (mode? : Option String) (payload? : Option Json)
    (resumeFn : Json → String → Json → WorkflowRunResult) (url : String)
    (now now2 : Nat) (task1 : ServiceTaskRow) (bound : CatalogServiceTaskRow)
    (hphase : serviceTaskStartPhase1 st (pyStrip ceid) (pyStrip stid)
      (match mode? with | some m => m | none => "sync")
      (coercePayload payload?) now = .proceed task1 bound) :
    (∀ (code : Nat) (body : RawBody),
      ∃ taskF : ServiceTaskRow,
        taskF = { task1 with
            status := "failed", lastError := "service_task_http_error",
            responsePayload := normalizeResultPayload (parseJsonBody body),
            completedAt := some now2, updatedAt := now2 } ∧
        serviceTaskStartPost st ceid stid mode? payload? (.httpError code body)
            resumeFn url now now2
          = ({ status := 502,
               body := serializeServiceTask taskF
                 { st.workflowInstance with status := "failed", updatedAt := now2 }
                 st.processKey st.version },
             { st with
                 serviceTask? := some taskF,
                 workflowInstance :=
                   { st.workflowInstance with status := "failed", updatedAt := now2 },
                 audit := st.audit ++ [serviceTaskStartAuditOf st task1 bound
                   (match mode? with | some m => m | none => "sync")] })) ∧
    (∀ message : String, message ≠ "" →
      ∃ taskF : ServiceTaskRow,
        taskF = { task1 with
            status := "failed", lastError := message,
            responsePayload := normalizeResultPayload (Json.objOf []),
            completedAt := some now2, updatedAt := now2 } ∧
        serviceTaskStartPost st ceid stid mode? payload? (.urlError message)
            resumeFn url now now2
          = ({ status := 502,
               body := serializeServiceTask taskF
                 { st.workflowInstance with status := "failed", updatedAt := now2 }
                 st.processKey st.version },
             { st with
                 serviceTask? := some taskF,
                 workflowInstance :=
                   { st.workflowInstance with status := "failed", updatedAt := now2 },
                 audit := st.audit ++ [serviceTaskStartAuditOf st task1 bound
                   (match mode? with | some m => m | none => "sync")] })) := by
  constructor
  · intro code body
    refine ⟨_, rfl, ?_⟩
    simp only [serviceTaskStartPost.eq_def, hphase, performServiceTaskRequest]
    have hne : ¬(("service_task_http_error" : String) = "") := by decide
    simp [hne, ite_self]
    cases mode? <;> rfl
  · intro message hmsg
    refine ⟨_, rfl, ?_⟩
    simp only [serviceTaskStartPost.eq_def, hphase, performServiceTaskRequest]
    simp [hmsg]
    cases mode? <;> rfl

/-- Witness for C2: a 500 upstream reply on the concrete pending task fails
task and instance and yields the 502 response. -/
theorem c2_witness :
    ∃ taskF : ServiceTaskRow,
      taskF = { svcStartedFx with
          status := "failed", lastError := "service_task_http_error",
          responsePayload := normalizeResultPayload (parseJsonBody emptyBodyFx),
          completedAt := some 22, updatedAt := 22 } ∧
      serviceTaskStartPost orchStFx "" "" none none (.httpError 500 emptyBodyFx)
          (fun _ _ _ => rrFx) "" 11 22
        = ({ status := 502,
             body := serializeServiceTask taskF
               { orchStFx.workflowInstance with status := "failed", updatedAt := 22 }
               orchStFx.processKey orchStFx.version },
           { orchStFx with
               serviceTask? := some taskF,
               workflowInstance :=
                 { orchStFx.workflowInstance with status := "failed", updatedAt := 22 },
               audit := orchStFx.audit ++ [serviceTaskStartAuditOf orchStFx
                 svcStartedFx catFx "sync"] }) :=
  (c2_sync_dispatch_failure orchStFx "" "" none none (fun _ _ _ => rrFx) ""
    11 22 svcStartedFx catFx (by decide)).1 500 emptyBodyFx

/-- Counterexample to C4 as stated: for a concrete dispatch the POST body is
not the canonical (sorted-keys) JSON of the envelope — `json.dumps` in
`_perform_service_task_request` is called without `sort_keys=True`, so
`payload` is emitted before `context`. -/
theorem c4_counterexample :
    serviceTaskRequestBody
        (buildServiceTaskPayload instFx svcStartedFx (Json.objOf []) "" "sync")
      ≠ strUtf8 (specCanonicalJson
        (buildServiceTaskPayload instFx svcStartedFx (Json.objOf []) "" "sync")) := by
  decide

/-- C4 (amended): the POST body is the compact, ASCII-escaped JSON encoding of
the envelope `{payload, context}` with keys in insertion order — `payload`
first, then `context` with `workflow_instance_id`, `service_task_id`,
`task_id`, `correlation_id`, `execution_mode` and (for async dispatches with a
callback URL) `callback_url`, in that order — not the sorted-keys canonical
form. -/
theorem c4_request_body_layout (inst : WorkflowInstanceRow)
    (task : ServiceTaskRow) (payload : Json) (callbackUrl : String)
    (mode : String) :
    serviceTaskRequestBody (buildServiceTaskPayload inst task payload
        callbackUrl mode)
      = strUtf8 ("\x7b\"payload\":" ++ jsonDumpsRaw payload
          ++ ",\"context\":\x7b\"workflow_instance_id\":"
          ++ toString (inst.id : Int)
          ++ ",\"service_task_id\":" ++ toString (task.id : Int)
          ++ ",\"task_id\":" ++ jsonDumpString task.taskId
          ++ ",\"correlation_id\":" ++ jsonDumpString inst.correlationId
          ++ ",\"execution_mode\":" ++ jsonDumpString mode
          ++ (if mode = "async" ∧ callbackUrl ≠ "" then
               ",\"callback_url\":" ++ jsonDumpString callbackUrl
             else "")
          ++ "\x7d\x7d") := by
  rw [serviceTaskRequestBody]
  apply congrArg strUtf8
  have hk1 : jsonDumpString "payload" = "\"payload\"" := by decide
  have hk2 : jsonDumpString "context" = "\"context\"" := by decide
  have hk3 : jsonDumpString "workflow_instance_id" = "\"workflow_instance_id\"" := by
    decide
  have hk4 : jsonDumpString "service_task_id" = "\"service_task_id\"" := by decide
  have hk5 : jsonDumpString "task_id" = "\"task_id\"" := by decide
  have hk6 : jsonDumpString "correlation_id" = "\"correlation_id\"" := by decide
  have hk7 : jsonDumpString "execution_mode" = "\"execution_mode\"" := by decide
  have hk8 : jsonDumpString "callback_url" = "\"callback_url\"" := by decide
  have hl1 : ("\x7b\"payload\":" : String) = "\x7b" ++ "\"payload\"" ++ ":" := by
    decide
  have hl2 : (",\"context\":\x7b\"workflow_instance_id\":" : String)
      = "," ++ "\"context\"" ++ ":" ++ "\x7b" ++ "\"workflow_instance_id\"" ++ ":" := by
    decide
  have hl3 : (",\"service_task_id\":" : String) = "," ++ "\"service_task_id\"" ++ ":" := by
    decide
  have hl4 : (",\"task_id\":" : String) = "," ++ "\"task_id\"" ++ ":" := by decide
  have hl5 : (",\"correlation_id\":" : String) = "," ++ "\"correlation_id\"" ++ ":" := by
    decide
  have hl6 : (",\"execution_mode\":" : String) = "," ++ "\"execution_mode\"" ++ ":" := by
    decide
  have hl7 : (",\"callback_url\":" : String) = "," ++ "\"callback_url\"" ++ ":" := by
    decide
  have hl8 : ("\x7d\x7d" : String) = "\x7d" ++ "\x7d" := by decide
  have hnil : ∀ x : String, "" ++ x = x := fun _ => rfl
  by_cases h : mode = "async" ∧ callbackUrl ≠ ""
  · simp only [buildServiceTaskPayload, if_pos h, Json.objOf, JsonObj.ofList,
      List.cons_append, List.nil_append, jsonDumps, Bool.false_eq_true,
      if_false, jsonDumpsRaw, jsonDumpsObj, if_pos h,
      hk1, hk2, hk3, hk4, hk5, hk6, hk7, hk8,
      hl1, hl2, hl3, hl4, hl5, hl6, hl7, hl8]
    simp only [String.append_assoc]
  · simp only [buildServiceTaskPayload, if_neg h, Json.objOf, JsonObj.ofList,
      List.append_nil, jsonDumps, Bool.false_eq_true, if_false,
      jsonDumpsRaw, jsonDumpsObj, if_neg h,
      hk1, hk2, hk3, hk4, hk5, hk6, hk7, hl1, hl2, hl3, hl4, hl5, hl6, hl8]
    simp only [String.append_assoc, hnil]

/-- What holds of a selected auto-binding: some placeholder of the stored list
is a dict, is not skipped by the element matching (skipping needs BOTH a
non-empty mismatching `element_id` AND a non-empty mismatching
`element_name`), carries a catalog-entry key variant and a service-task key
variant with non-empty values, and those values resolve to the returned
catalog row of the tenant. -/
def catalogBindingWitness (catalog : List CatalogServiceTaskRow)
    (eid ename : String) (items : JsonArr) (c : CatalogServiceTaskRow) : Prop :=
  ∃ ph attrs,
    ph ∈ items.toList ∧ ph.isDict = true ∧
    placeholderSkipped ph eid ename = false ∧
    ph.get? "placeholders" = some (.obj attrs) ∧
    firstVariantValue attrs catalogKeyVariants ≠ "" ∧
    firstVariantValue attrs taskKeyVariants ≠ "" ∧
    c ∈ catalog ∧
    c.catalogEntryExternalId = firstVariantValue attrs catalogKeyVariants ∧
    c.externalId = firstVariantValue attrs taskKeyVariants

/-- Soundness of the placeholder loop (structural recursion over the stored
list). -/
theorem findCatalogBindingLoop_sound (catalog : List CatalogServiceTaskRow)
    (eid ename : String) :
    ∀ (items : JsonArr) (c : CatalogServiceTaskRow),
    findCatalogBindingLoop catalog items eid ename = some c →
    catalogBindingWitness catalog eid ename items c
  | .nil, c, h => absurd h (by simp [findCatalogBindingLoop])
  | .cons ph rest, c, h => by
    have hlift : catalogBindingWitness catalog eid ename rest c →
        catalogBindingWitness catalog eid ename (.cons ph rest) c := by
      rintro ⟨ph', attrs, hmem, hprops⟩
      exact ⟨ph', attrs, List.mem_cons_of_mem _ hmem, hprops⟩
    have ih := findCatalogBindingLoop_sound catalog eid ename rest c
    rw [findCatalogBindingLoop] at h
    by_cases hdict : ph.isDict
    · rw [if_neg (by simp [hdict])] at h
      by_cases hskip : placeholderSkipped ph eid ename = true
      · rw [if_pos hskip] at h
        exact hlift (ih h)
      · rw [if_neg hskip] at h
        rcases hget : ph.get? "placeholders" with _ | val
        · rw [hget] at h
          simp only [] at h
          exact hlift (ih h)
        · rw [hget] at h
          cases val
          · simp only [] at h
            exact hlift (ih h)
          · simp only [] at h
            exact hlift (ih h)
          · simp only [] at h
            exact hlift (ih h)
          · simp only [] at h
            exact hlift (ih h)
          · simp only [] at h
            exact hlift (ih h)
          · rename_i attrs
            simp only [] at h
            by_cases hids : firstVariantValue attrs catalogKeyVariants = ""
                ∨ firstVariantValue attrs taskKeyVariants = ""
            · rw [if_pos hids] at h
              exact hlift (ih h)
            · rw [if_neg hids] at h
              rcases hfind : catalog.find? (fun c =>
                  c.catalogEntryExternalId == firstVariantValue attrs catalogKeyVariants
                    && c.externalId == firstVariantValue attrs taskKeyVariants)
                with _ | c'
              · rw [hfind] at h
                simp only [] at h
                exact hlift (ih h)
              · rw [hfind] at h
                simp only [] at h
                have hc := Option.some.inj h
                subst hc
                push_neg at hids
                have hmem := List.mem_of_find?_eq_some hfind
                have hpred := List.find?_some hfind
                simp only [Bool.and_eq_true, beq_iff_eq] at hpred
                exact ⟨ph, attrs, List.mem_cons_self _ _, hdict,
                  Bool.not_eq_true _ ▸ (by simpa using hskip), hget,
                  hids.1, hids.2, hmem, hpred.1, hpred.2⟩
    · rw [if_pos (by simp [hdict])] at h
      exact hlift (ih h)

/-- C5 (amended): an auto-binding is selected from the definition's
`catalog_binding_placeholders` only through a dict placeholder that is **not
skipped** — and a placeholder is skipped only when the task's `element_id` is
non-empty and mismatches AND the task's `element_name` is non-empty and
mismatches, so with an empty `element_name` (or `element_id`) a placeholder
matching neither may be chosen — whose lowercased attributes contain a
catalog-entry key variant and a service-task key variant with non-empty values
resolving to an existing `CatalogServiceTask` of the tenant; and when the
lookup (with no supplied ids and no prior binding) finds nothing, the start
request fails with 400 `missing_catalog_binding`. -/
theorem c5_autobinding_sound_and_400 :
    (∀ (catalog : List CatalogServiceTaskRow) (placeholders : Json)
      (eid ename : String) (c : CatalogServiceTaskRow),
      findCatalogBindingFromDefinition catalog placeholders eid ename = some c →
      ∃ items, placeholders = Json.arr items ∧
        catalogBindingWitness catalog eid ename items c) ∧
    (∀ (st : OrchestratorSt) (ceid stid : String) (mode? : Option String)
      (payload? : Option Json) (upstream : UpstreamOutcome)
      (resumeFn : Json → String → Json → WorkflowRunResult) (url : String)
      (now now2 : Nat) (task : ServiceTaskRow),
      st.serviceTask? = some task →
      (task.status = "pending" ∨ task.status = "failed") →
      task.catalogServiceTask = none →
      pyStrip ceid = "" →
      findCatalogBindingFromDefinition st.catalog st.placeholders
        task.elementId task.elementName = none →
      serviceTaskStartPost st ceid stid mode? payload? upstream resumeFn url
          now now2
        = ({ status := 400, body := missingCatalogBindingBody }, st)) := by
  constructor
  · intro catalog placeholders eid ename c h
    cases placeholders
    · exact absurd h (by simp [findCatalogBindingFromDefinition])
    · exact absurd h (by simp [findCatalogBindingFromDefinition])
    · exact absurd h (by simp [findCatalogBindingFromDefinition])
    · exact absurd h (by simp [findCatalogBindingFromDefinition])
    · rename_i items
      simp only [findCatalogBindingFromDefinition] at h
      exact ⟨items, rfl, findCatalogBindingLoop_sound catalog eid ename items c h⟩
    · exact absurd h (by simp [findCatalogBindingFromDefinition])
  · intro st ceid stid mode? payload? upstream resumeFn url now now2 task
      htask hstat hunbound hceid hfind
    have hensure : ensureCatalogServiceTaskBinding st.catalog (pyStrip ceid)
        (pyStrip stid) = none := by
      rw [ensureCatalogServiceTaskBinding, hceid]
      simp
    have hphase : serviceTaskStartPhase1 st (pyStrip ceid) (pyStrip stid)
        (match mode? with | some m => m | none => "sync")
        (coercePayload payload?) now
        = .reject { status := 400, body := missingCatalogBindingBody } := by
      rw [serviceTaskStartPhase1, htask]
      simp only [if_neg (not_not_intro hstat), hunbound, hensure, hfind]
    simp only [serviceTaskStartPost.eq_def, hphase]

/-- Counterexample to C5 as stated: with element id `A` and an empty element
name, the lookup selects the binding of a placeholder whose `element_id` is
`B` and whose `element_name` is `other` — it matches neither the task's
element_id nor its element_name. -/
theorem c5_counterexample :
    findCatalogBindingFromDefinition [c5RowFx] c5PlaceholdersFx "A" ""
        = some c5RowFx
      ∧ c5PhFx.get? "element_id" ≠ some (.str "A")
      ∧ c5PhFx.get? "element_name" ≠ some (.str "") := by
  decide

/-- Witness for C5 (amended): both conjuncts applied at concrete inputs. -/
theorem c5_witness :
    (∃ items, c5PlaceholdersFx = Json.arr items ∧
      catalogBindingWitness [c5RowFx] "A" "" items c5RowFx) ∧
    serviceTaskStartPost orchStUnboundFx "" "" none none (.urlError "down")
        (fun _ _ _ => rrFx) "" 3 4
      = ({ status := 400, body := missingCatalogBindingBody }, orchStUnboundFx) :=
  ⟨c5_autobinding_sound_and_400.1 [c5RowFx] c5PlaceholdersFx "A" "" c5RowFx
      (by decide),
   c5_autobinding_sound_and_400.2 orchStUnboundFx "" "" none none
      (.urlError "down") (fun _ _ _ => rrFx) "" 3 4 svcUnboundFx rfl
      (Or.inl rfl) rfl (by decide) (by decide)⟩

/-- A correctly computed signature passes the header checks. -/
theorem callbackAuthCheck_correct_sig (k : String) (b : List Nat) (t : String)
    (hk : k ≠ "") (ht : t ≠ "") :
    callbackAuthCheck k t (callbackSignature k b t) b = none := by
  rw [callbackAuthCheck]
  rw [if_neg hk]
  rw [if_neg (by simp [ht, callbackSignature_ne_empty])]
  rw [if_neg (by simp [compareDigest])]

/-- With all three headers present, verification succeeds exactly when the
presented signature equals the expected HMAC of the presented key, body and
timestamp. -/
theorem callbackAuthCheck_none_iff (k t s : String) (b : List Nat)
    (hk : k ≠ "") (ht : t ≠ "") (hs : s ≠ "") :
    callbackAuthCheck k t s b = none ↔ s = callbackSignature k b t := by
  constructor
  · intro h
    by_contra hne
    rw [callbackAuthCheck, if_neg hk, if_neg (by simp [ht, hs])] at h
    rw [if_pos (by simp [compareDigest]; exact fun heq => hne heq.symm)] at h
    exact absurd h (by simp)
  · intro h
    subst h
    exact callbackAuthCheck_correct_sig k b t hk ht

/-- C1 (amended): a callback carrying
`hex(HMAC-SHA256(key = k, msg = body ‖ timestamp))` passes verification, and a
presented signature is accepted **iff** it equals that HMAC of the presented
key, body and timestamp — so alterations of `(body, timestamp)` that preserve
the concatenated bytes `body ‖ timestamp` (and the key) still pass, while any
presented signature different from the expected one is rejected with 401; a
request with a missing (empty) timestamp or signature header is rejected with
400, and a missing `X-Tenant-Api-Key` header with 401; the view returns these
verdicts with the state unchanged. -/
theorem c1_callback_signature_verification :
    (∀ (k : String) (b : List Nat) (t : String), k ≠ "" → t ≠ "" →
      callbackAuthCheck k t (callbackSignature k b t) b = none) ∧
    (∀ (k t s : String) (b : List Nat), k ≠ "" → t ≠ "" → s ≠ "" →
      (callbackAuthCheck k t s b = none ↔ s = callbackSignature k b t)) ∧
    (∀ (t s : String) (b : List Nat),
      callbackAuthCheck "" t s b
        = some { status := 401, body := detailBody "Missing tenant API key." }) ∧
    (∀ (k t s : String) (b : List Nat), k ≠ "" → (t = "" ∨ s = "") →
      callbackAuthCheck k t s b
        = some { status := 400,
                 body := detailBody "Missing callback signature headers." }) ∧
    (∀ (st : OrchestratorSt) (k t s : String) (idk : Option String)
      (body : RawBody) (resumeFn : Json → String → Json → WorkflowRunResult)
      (now : Nat) (resp : HttpResponse),
      callbackAuthCheck k t s body.bytes = some resp →
      serviceTaskCallbackPost st k t s idk body resumeFn now = some (resp, st)) := by
  refine ⟨callbackAuthCheck_correct_sig, callbackAuthCheck_none_iff, ?_, ?_, ?_⟩
  · intro t s b
    rw [callbackAuthCheck, if_pos rfl]
  · intro k t s b hk hts
    rw [callbackAuthCheck, if_neg hk, if_pos hts]
  · intro st k t s idk body resumeFn now resp h
    rw [serviceTaskCallbackPost, h]

/-- Counterexample to C1 as stated: moving a byte from the front of the
timestamp to the end of the body changes both `b` and `t` yet the original
signature still passes verification (the request proceeds past the HMAC check
to the 404 lookup, instead of being rejected with 401). -/
theorem c1_counterexample :
    serviceTaskCallbackPost orchStMissingFx "k" "x"
        (callbackSignature "k" (strUtf8 "a") "1x") none
        { bytes := strUtf8 "a1", parsed := none, decoded := "a1" }
        (fun _ _ _ => rrFx) 0
      = some ({ status := 404, body := detailBody "Not found." },
          orchStMissingFx)
    ∧ strUtf8 "a1" ≠ strUtf8 "a" ∧ ("x" : String) ≠ "1x" := by
  refine ⟨?_, by decide, by decide⟩
  have hsig : callbackSignature "k" (strUtf8 "a1") "x"
      = callbackSignature "k" (strUtf8 "a") "1x" := by
    rw [callbackSignature, callbackSignature]
    exact congrArg (fun m => hexDigest (hmacSha256 (strUtf8 "k") m)) (by decide)
  have hauth : callbackAuthCheck "k" "x"
      (callbackSignature "k" (strUtf8 "a") "1x") (strUtf8 "a1") = none := by
    rw [← hsig]
    exact callbackAuthCheck_correct_sig "k" (strUtf8 "a1") "x"
      (by decide) (by decide)
  rw [serviceTaskCallbackPost, hauth]
  rfl

/-- Witness for C1 (amended): the conjuncts applied at concrete inputs. -/
theorem c1_witness :
    callbackAuthCheck "key" "1700000000"
        (callbackSignature "key" (strUtf8 "payload") "1700000000")
        (strUtf8 "payload") = none ∧
    (callbackAuthCheck "key" "1700000000" "ff"
        (strUtf8 "payload") = none ↔
      ("ff" : String) = callbackSignature "key" (strUtf8 "payload") "1700000000") ∧
    callbackAuthCheck "" "1700000000" "ff" []
      = some { status := 401, body := detailBody "Missing tenant API key." } ∧
    callbackAuthCheck "key" "" "ff" []
      = some { status := 400,
               body := detailBody "Missing callback signature headers." } ∧
    serviceTaskCallbackPost orchStMissingFx "" "t" "s" none emptyBodyFx
        (fun _ _ _ => rrFx) 0
      = some ({ status := 401, body := detailBody "Missing tenant API key." },
          orchStMissingFx) :=
  ⟨c1_callback_signature_verification.1 "key" (strUtf8 "payload") "1700000000"
      (by decide) (by decide),
   c1_callback_signature_verification.2.1 "key" "1700000000" "ff"
      (strUtf8 "payload") (by decide) (by decide) (by decide),
   c1_callback_signature_verification.2.2.1 "1700000000" "ff" [],
   c1_callback_signature_verification.2.2.2.1 "key" "" "ff" [] (by decide)
      (Or.inl rfl),
   c1_callback_signature_verification.2.2.2.2 orchStMissingFx "" "t" "s" none
      emptyBodyFx (fun _ _ _ => rrFx) 0 _
      (c1_callback_signature_verification.2.2.1 "t" "s" emptyBodyFx.bytes)⟩

/-- C9: a callback whose body passes HMAC verification but is not parseable as
JSON is never rejected for its content: `_parse_json_body` wraps the body as a
one-field dict mapping `"raw"` to the decoded text, the callback status reads
as `""` (not `"failed"`), and — when the task exists, is not already completed,
and no idempotency key is given — the view marks the service task `completed`
with the wrapper as its response payload, resumes the workflow with the wrapper
as the task result, and returns 200 with the serialized completed task. -/
theorem c9_unparseable_callback_completes
    (st : OrchestratorSt) (k t : String) (body : RawBody)
    (resumeFn : Json → String → Json → WorkflowRunResult) (now : Nat)
    (task : ServiceTaskRow)
    (hk : k ≠ "") (ht : t ≠ "")
    (htask : st.serviceTask? = some task)
    (hstatus : ¬ task.status = "completed")
    (hbytes : ¬ body.bytes = [])
    (hparse : body.parsed = none) :
    parseJsonBody body = Json.objOf [("raw", Json.str body.decoded)] ∧
    pyLower (pyStrOfJson
      (Json.getD (parseJsonBody body) "status" (Json.str ""))) = "" ∧
    (∃ task' inst' st',
      serviceTaskCallbackPost st k t (callbackSignature k body.bytes t) none
          body resumeFn now
        = some ({ status := 200,
                  body := serializeServiceTask task' inst'
                    st.processKey st.version }, st') ∧
      task' = { task with
                status := "completed",
                responsePayload := Json.objOf [("raw", Json.str body.decoded)],
                completedAt := some now, updatedAt := now } ∧
      inst' = { st.workflowInstance with
                status := (resumeFn st.workflowInstance.serializedState
                  task.taskId
                  (Json.objOf [("raw", Json.str body.decoded)])).status,
                serializedState := (resumeFn st.workflowInstance.serializedState
                  task.taskId
                  (Json.objOf [("raw", Json.str body.decoded)])).serializedState,
                updatedAt := now } ∧
      st'.serviceTask? = some task' ∧ st'.workflowInstance = inst') := by
  have hauth := callbackAuthCheck_correct_sig k body.bytes t hk ht
  have hpj : parseJsonBody body
      = Json.objOf [("raw", Json.str body.decoded)] := by
    rw [parseJsonBody, if_neg hbytes, hparse]
  refine ⟨hpj, by rw [hpj]; rfl, ?_⟩
  have hcs : pyLower (pyStrOfJson (Json.getD
      (Json.obj (JsonObj.cons "raw" (Json.str body.decoded) JsonObj.nil))
      "status" (Json.str ""))) = "" := rfl
  have hdata : JsonObj.get? (JsonObj.cons "raw" (Json.str body.decoded)
      JsonObj.nil) "data" = none := rfl
  have hres : JsonObj.get? (JsonObj.cons "raw" (Json.str body.decoded)
      JsonObj.nil) "result" = none := rfl
  have hnorm : normalizeResultPayload
      (Json.obj (JsonObj.cons "raw" (Json.str body.decoded) JsonObj.nil))
    = Json.obj (JsonObj.cons "raw" (Json.str body.decoded) JsonObj.nil) := rfl
  have key : serviceTaskCallbackPost st k t (callbackSignature k body.bytes t)
      none body resumeFn now
    = serviceTaskCallbackPost st k t (callbackSignature k body.bytes t)
      none body resumeFn now := rfl
  conv_rhs at key => rw [serviceTaskCallbackPost, hauth]
  conv_rhs at key => simp [htask, hpj, optTruthy, Json.objOf, JsonObj.ofList,
    hdata, hres, hcs, hnorm, hstatus]
  exact ⟨_, _, _, key, rfl, rfl, rfl, rfl⟩

/-- Witness for C9 at concrete inputs. -/
theorem c9_witness :
    parseJsonBody rawBodyFx = Json.objOf [("raw", Json.str rawBodyFx.decoded)] ∧
    pyLower (pyStrOfJson
      (Json.getD (parseJsonBody rawBodyFx) "status" (Json.str ""))) = "" ∧
    (∃ task' inst' st',
      serviceTaskCallbackPost orchStWaitingFx "key" "1"
          (callbackSignature "key" rawBodyFx.bytes "1") none
          rawBodyFx (fun _ _ _ => rrFx) 5
        = some ({ status := 200,
                  body := serializeServiceTask task' inst'
                    orchStWaitingFx.processKey orchStWaitingFx.version }, st') ∧
      task' = { svcWaitingFx with
                status := "completed",
                responsePayload :=
                  Json.objOf [("raw", Json.str rawBodyFx.decoded)],
                completedAt := some 5, updatedAt := 5 } ∧
      inst' = { orchStWaitingFx.workflowInstance with
                status := rrFx.status,
                serializedState := rrFx.serializedState,
                updatedAt := 5 } ∧
      st'.serviceTask? = some task' ∧ st'.workflowInstance = inst') :=
  c9_unparseable_callback_completes orchStWaitingFx "key" "1" rawBodyFx
    (fun _ _ _ => rrFx) 5 svcWaitingFx (by decide) (by decide) rfl
    (by decide) (by decide) rfl

/-- C7: when the ready-task pass of a run (start or resume) reaches a
ScriptTask whose script source is missing or blank, the pass aborts at that
task no matter what tasks follow it (no further task executes), and the run
returns status `"failed"` with the state at the failure, empty
`waiting_user_tasks` and `waiting_service_tasks` lists, and an error message
containing `"missing script"`; `start_workflow_from_definition` and
`resume_workflow_from_state` (without a completed-task id) both return exactly
this snapshot. -/
theorem c7_missing_script_fails_run {σ : Type} (ops : EngineOps σ)
    (s0 s spre : σ) (fuel : Nat) (pre post : List EngTask) (t : EngTask)
    (prog : Bool) (corr bk : String)
    (hattach : attachIdentifiers ops s0 corr bk = s)
    (hready : ops.readyTasks s = pre ++ t :: post)
    (hscript : isScriptTaskRT t = true)
    (hnotwait : isWaitingTaskRT t = false)
    (hmissing : extractScriptSource t.spec = none
      ∨ ∃ src, extractScriptSource t.spec = some src ∧ pyStrip src = "")
    (hpre : runPass ops s pre false = .ok (spre, prog)) :
    (∀ post', runPass ops s (pre ++ t :: post') false
      = .error (spre, formatScriptError t "missing script")) ∧
    runAndSnapshot ops (fuel + 1) s
      = { status := "failed", serializedState := ops.serialize spre,
          waitingUserTasks := [], waitingServiceTasks := [],
          errorMessage := some (formatScriptError t "missing script") } ∧
    pyContains (formatScriptError t "missing script") "missing script" = true ∧
    startWorkflowFromDefinition ops (fuel + 1) s0 corr bk
      = { status := "failed", serializedState := ops.serialize spre,
          waitingUserTasks := [], waitingServiceTasks := [],
          errorMessage := some (formatScriptError t "missing script") } ∧
    resumeWorkflowFromState ops (fuel + 1) s0 none none corr bk
      = .ok { status := "failed", serializedState := ops.serialize spre,
              waitingUserTasks := [], waitingServiceTasks := [],
              errorMessage := some (formatScriptError t "missing script") } := by
  have hfail : runTaskRT ops spre t
      = .error (formatScriptError t "missing script") := by
    rw [runTaskRT, if_pos hscript]
    rcases hmissing with hnone | ⟨src, hsome, hblank⟩
    · rw [runScriptTaskRT, hnone]
    · rw [runScriptTaskRT, hsome]
      simp only []
      rw [if_pos hblank]
  have hpass : ∀ post', runPass ops s (pre ++ t :: post') false
      = .error (spre, formatScriptError t "missing script") := by
    intro post'
    rw [runPass_append ops pre (t :: post') s false, hpre]
    simp only []
    rw [runPass, if_neg (by simp [hnotwait]), hfail]
  have hrun : runUntilWaiting ops (fuel + 1) s
      = ("failed", some (formatScriptError t "missing script"), spre) := by
    have hne : (pre ++ t :: post).isEmpty = false := by cases pre <;> rfl
    simp only [runUntilWaiting, hready, hne, Bool.false_eq_true, if_false,
      hpass post]
  have hsnap : runAndSnapshot ops (fuel + 1) s
      = { status := "failed", serializedState := ops.serialize spre,
          waitingUserTasks := [], waitingServiceTasks := [],
          errorMessage := some (formatScriptError t "missing script") } := by
    simp [runAndSnapshot, hrun]
  refine ⟨hpass, hsnap, formatScriptError_contains t, ?_, ?_⟩
  · rw [startWorkflowFromDefinition, hattach]
    exact hsnap
  · simp only [resumeWorkflowFromState, hattach, hsnap]

/-- Witness for C7: the script-less `scriptTaskFx` under `scriptEngineOps`. -/
theorem c7_witness :
    runPass scriptEngineOps () ([] ++ scriptTaskFx :: [scriptTaskFx]) false
      = .error ((), formatScriptError scriptTaskFx "missing script") ∧
    runAndSnapshot scriptEngineOps 1 ()
      = { status := "failed",
          serializedState := scriptEngineOps.serialize (),
          waitingUserTasks := [], waitingServiceTasks := [],
          errorMessage :=
            some (formatScriptError scriptTaskFx "missing script") } ∧
    pyContains (formatScriptError scriptTaskFx "missing script")
      "missing script" = true ∧
    startWorkflowFromDefinition scriptEngineOps 1 () "" ""
      = { status := "failed",
          serializedState := scriptEngineOps.serialize (),
          waitingUserTasks := [], waitingServiceTasks := [],
          errorMessage :=
            some (formatScriptError scriptTaskFx "missing script") } ∧
    resumeWorkflowFromState scriptEngineOps 1 () none none "" ""
      = .ok { status := "failed",
              serializedState := scriptEngineOps.serialize (),
              waitingUserTasks := [], waitingServiceTasks := [],
              errorMessage :=
                some (formatScriptError scriptTaskFx "missing script") } := by
  have h := c7_missing_script_fails_run scriptEngineOps () () () 0 [] []
    scriptTaskFx false "" "" rfl rfl (by decide) (by decide) (Or.inl rfl) rfl
  exact ⟨h.1 [scriptTaskFx], h.2.1, h.2.2.1, h.2.2.2.1, h.2.2.2.2⟩
